import Mathlib

/-!
# Identity registry / signing service

A shallow embedding of `platform/view/core/sig/service.go`.

* Go maps `map[string]X` are functions `String → Option X`; `none` means the key is not in
  the map.  An interface value (`api.Signer`, `api.Verifier`) is an `Option`: `none` is Go's
  `nil`, `some s` is the object `s`.  So `o.signers k = some none` is a key bound to `nil`.
* A Go `error` result is an `Option Error` (`none` is `nil`), a `[]byte` is `Bytes`
  (`none` is the nil slice).
* The collaborators the service reaches through references (the key-value store behind
  `kvs.GetService(o.sp)` and the injected `Deserializer`) are records of functions over an
  explicit collaborator state; every call made to them is appended to `service.calls`.
* The mutex `viewsSync` only matters for concurrent callers; the operations below are the
  sequential executions of the Go methods.
-/

namespace sig

namespace view

/-- The Go type `view.Identity`, a byte slice. -/
abbrev Identity := List UInt8

end view

namespace api

/-- Modelled from the spec: `api.IdentityType` is declared outside the files at hand; the
spec describes it as an enum-like tag. -/
abbrev IdentityType := Int

/-- Modelled from the spec: the "unknown" sentinel of `api.IdentityType`. -/
def Unknown : IdentityType := 0

/-- Modelled from the spec: the default classification ("membership-scheme identity"). -/
def MSPIdentity : IdentityType := 1

end api

/-- A Go byte slice; `none` is the nil slice. -/
abbrev Bytes := Option (List UInt8)

/-- Values of Go's `error` as built with `github.com/pkg/errors`: `errors.New` and
`errors.Errorf` make a fresh error carrying a message, `errors.Wrapf` puts a message around a
cause.  Errors coming from the store or the deserializer are values of this type too. -/
inductive Error where
  | New (msg : String)
  | Wrapf (cause : Error) (msg : String)
deriving DecidableEq, Repr

namespace Error

/-- The error directly underneath a wrapper, if any. -/
def Unwrap : Error → Option Error
  | New _ => none
  | Wrapf cause _ => some cause

/-- The function `errors.Cause`: the innermost error of a chain of wrappers. -/
def Cause : Error → Error
  | New msg => New msg
  | Wrapf cause _ => Cause cause

end Error

/-- The conversion `string(id)` of raw bytes, one character per byte. -/
def rawString (id : view.Identity) : String :=
  String.mk (id.map fun b => Char.ofNat b.toNat)

/-- What a Go call yields to its caller: a returned value or a run-time panic. -/
inductive Outcome (α : Type) where
  | ret (a : α)
  | panic (msg : String)
deriving DecidableEq, Repr

/-- Declarations used by `service.go` that live elsewhere in the repository: the methods
`UniqueID` and `String` of `view.Identity`, `kvs.CreateCompositeKeyOrPanic`, and the dynamic
type test `signer.(api.SigningIdentity)`. -/
structure Env (S : Type) where
  UniqueID : view.Identity → String
  IdentityString : view.Identity → String
  CreateCompositeKeyOrPanic : String → List String → String
  isSigningIdentity : S → Bool

/-- The `Deserializer` interface, over a deserializer state `D`. -/
structure Deserializer (S V D : Type) where
  DeserializeSigner : D → view.Identity → Except Error (Option S) × D
  DeserializeVerifier : D → view.Identity → Except Error (Option V) × D
  Info : D → view.Identity → Bytes → Except Error String × D

/-- The store obtained by `kvs.GetService(o.sp)`, over a store state `K`. -/
structure KVS (K : Type) where
  Put : K → String → Bytes → Option Error × K
  Get : K → String → Except Error Bytes
  Exists : K → String → Bool

/-- A call made by the service to one of its collaborators. -/
inductive Call where
  | DeserializeSigner (identity : view.Identity)
  | DeserializeVerifier (identity : view.Identity)
  | DeserializerInfo (identity : view.Identity) (auditInfo : Bytes)
  | Put (k : String) (info : Bytes)
  | Get (k : String)
  | Exists (k : String)
deriving DecidableEq, Repr

/-- The assignment `m[k] = v` on a Go map. -/
def mapSet {α : Type} (m : String → Option α) (k : String) (v : α) : String → Option α :=
  fun k' => if k' = k then some v else m k'

/-- The struct `service` together with the state of the collaborators it points to:
`kv` is the content of the store behind `sp`, `ds` the state behind `deserializer`, and
`calls` the log of collaborator calls made so far. -/
structure service (S V D K : Type) where
  sp : KVS K
  types : String → Option api.IdentityType
  signers : String → Option (Option S)
  verifiers : String → Option (Option V)
  deserializer : Option (Deserializer S V D)
  kv : K
  ds : D
  calls : List Call

/-- The struct `si`. -/
structure si (S : Type) where
  id : view.Identity
  signer : Option S

namespace api

/-- A value of interface type `api.SigningIdentity` as `GetSigningIdentity` returns it:
either the signer object itself or a pointer to a new `si`. -/
inductive SigningIdentity (S : Type) where
  | ofSigner (s : S)
  | ofSi (c : si S)

end api

variable {S V D K : Type}

/-- The constructor `NewSignService`, given the initial states of the collaborators. -/
def NewSignService (sp : KVS K) (deserializer : Option (Deserializer S V D)) (kv : K) (ds : D) :
    service S V D K :=
  { sp := sp
    types := fun _ => none
    signers := fun _ => none
    verifiers := fun _ => none
    deserializer := deserializer
    kv := kv
    ds := ds
    calls := [] }

namespace service

/-- The method `RegisterVerifierWithType`. -/
def RegisterVerifierWithType (env : Env S) (o : service S V D K) (typ : api.IdentityType)
    (identity : view.Identity) (verifier : Option V) : Option Error × service S V D K :=
  match verifier with
  | none => (some (Error.New "invalid verifier, expected a valid instance"), o)
  | some _ =>
    match o.verifiers (env.UniqueID identity) with
    | some _ => (none, o)
    | none =>
      (none, { o with
        verifiers := mapSet o.verifiers (env.UniqueID identity) verifier
        types := mapSet o.types (env.UniqueID identity) typ })

/-- The method `RegisterSignerWithType`. -/
def RegisterSignerWithType (env : Env S) (o : service S V D K) (typ : api.IdentityType)
    (identity : view.Identity) (signer : Option S) (verifier : Option V) :
    Option Error × service S V D K :=
  match signer with
  | none => (some (Error.New "invalid signer, expected a valid instance"), o)
  | some _ =>
    match verifier with
    | none => (some (Error.New "invalid verifier, expected a valid instance"), o)
    | some _ =>
      match o.signers (env.UniqueID identity) with
      | some _ => (none, o)
      | none =>
        RegisterVerifierWithType env
          { o with
            signers := mapSet o.signers (env.UniqueID identity) signer
            types := mapSet o.types (env.UniqueID identity) typ }
          typ identity verifier

/-- The method `RegisterSigner`. -/
def RegisterSigner (env : Env S) (o : service S V D K) (identity : view.Identity)
    (signer : Option S) (verifier : Option V) : Option Error × service S V D K :=
  RegisterSignerWithType env o api.MSPIdentity identity signer verifier

/-- The method `RegisterVerifier`. -/
def RegisterVerifier (env : Env S) (o : service S V D K) (identity : view.Identity)
    (verifier : Option V) : Option Error × service S V D K :=
  RegisterVerifierWithType env o api.MSPIdentity identity verifier

/-- The store key both audit-info methods build. -/
def auditKey (env : Env S) (identity : view.Identity) : String :=
  env.CreateCompositeKeyOrPanic "fsc.platform.view.sig" [env.IdentityString identity]

/-- The method `RegisterAuditInfo`. -/
def RegisterAuditInfo (env : Env S) (o : service S V D K) (identity : view.Identity)
    (info : Bytes) : Option Error × service S V D K :=
  let k := auditKey env identity
  let r := o.sp.Put o.kv k info
  let o1 := { o with kv := r.2, calls := o.calls ++ [Call.Put k info] }
  match r.1 with
  | some err => (some err, o1)
  | none => (none, o1)

/-- The method `GetAuditInfo`. -/
def GetAuditInfo (env : Env S) (o : service S V D K) (identity : view.Identity) :
    (Bytes × Option Error) × service S V D K :=
  let k := auditKey env identity
  if o.sp.Exists o.kv k then
    match o.sp.Get o.kv k with
    | .error err => ((none, some err), { o with calls := o.calls ++ [Call.Exists k, Call.Get k] })
    | .ok res => ((res, none), { o with calls := o.calls ++ [Call.Exists k, Call.Get k] })
  else
    ((none, none), { o with calls := o.calls ++ [Call.Exists k] })

/-- The fallback text of `Info`. -/
def unableToIdentify (env : Env S) (id : view.Identity) : String :=
  "unable to identify identity : [" ++ env.UniqueID id ++ "][" ++ rawString id ++ "]"

/-- The method `Info`.  Calling a method on the nil `deserializer` panics. -/
def Info (env : Env S) (o : service S V D K) (id : view.Identity) :
    Outcome String × service S V D K :=
  match GetAuditInfo env o id with
  | ((_, some _), o1) => (Outcome.ret (unableToIdentify env id), o1)
  | ((auditInfo, none), o1) =>
    match o1.deserializer with
    | none => (Outcome.panic "invalid memory address or nil pointer dereference", o1)
    | some d =>
      match d.Info o1.ds id auditInfo with
      | (.error _, ds1) =>
        (Outcome.ret (unableToIdentify env id),
          { o1 with ds := ds1, calls := o1.calls ++ [Call.DeserializerInfo id auditInfo] })
      | (.ok info, ds1) =>
        (Outcome.ret info,
          { o1 with ds := ds1, calls := o1.calls ++ [Call.DeserializerInfo id auditInfo] })

/-- The method `GetSigner`. -/
def GetSigner (env : Env S) (o : service S V D K) (identity : view.Identity) :
    (Option S × Option Error) × service S V D K :=
  match o.signers (env.UniqueID identity) with
  | some signer => ((signer, none), o)
  | none =>
    match o.deserializer with
    | none =>
      ((none, some (Error.New ("cannot find signer for [" ++ env.IdentityString identity ++
          "], no deserializer set"))), o)
    | some d =>
      match d.DeserializeSigner o.ds identity with
      | (.error err, ds1) =>
        ((none, some (Error.Wrapf err ("failed deserializing identity for signer [" ++
            env.IdentityString identity ++ "]"))),
          { o with ds := ds1, calls := o.calls ++ [Call.DeserializeSigner identity] })
      | (.ok signer, ds1) =>
        ((signer, none),
          { o with
            signers := mapSet o.signers (env.UniqueID identity) signer
            ds := ds1
            calls := o.calls ++ [Call.DeserializeSigner identity] })

/-- The method `GetVerifier`. -/
def GetVerifier (env : Env S) (o : service S V D K) (identity : view.Identity) :
    (Option V × Option Error) × service S V D K :=
  match o.verifiers (env.UniqueID identity) with
  | some verifier => ((verifier, none), o)
  | none =>
    match o.deserializer with
    | none =>
      ((none, some (Error.New ("cannot find verifier for [" ++ env.IdentityString identity ++
          "], no deserializer set"))), o)
    | some d =>
      match d.DeserializeVerifier o.ds identity with
      | (.error err, ds1) =>
        ((none, some (Error.Wrapf err ("failed deserializing identity for verifier " ++
            env.IdentityString identity))),
          { o with ds := ds1, calls := o.calls ++ [Call.DeserializeVerifier identity] })
      | (.ok verifier, ds1) =>
        ((verifier, none),
          { o with
            verifiers := mapSet o.verifiers (env.UniqueID identity) verifier
            ds := ds1
            calls := o.calls ++ [Call.DeserializeVerifier identity] })

/-- The method `GetSigningIdentity`. -/
def GetSigningIdentity (env : Env S) (o : service S V D K) (identity : view.Identity) :
    (Option (api.SigningIdentity S) × Option Error) × service S V D K :=
  match GetSigner env o identity with
  | ((_, some err), o1) => ((none, some err), o1)
  | ((signer, none), o1) =>
    match signer with
    | some s =>
      if env.isSigningIdentity s then ((some (api.SigningIdentity.ofSigner s), none), o1)
      else ((some (api.SigningIdentity.ofSi { id := identity, signer := signer }), none), o1)
    | none => ((some (api.SigningIdentity.ofSi { id := identity, signer := signer }), none), o1)

/-- The method `IdentityType`. -/
def IdentityType (env : Env S) (o : service S V D K) (identity : view.Identity) :
    api.IdentityType :=
  match o.types (env.UniqueID identity) with
  | none => api.Unknown
  | some t => t

end service

/-- One call of a public method of the service, with its arguments. -/
inductive Op (S V : Type) where
  | RegisterSignerWithType (typ : api.IdentityType) (identity : view.Identity)
      (signer : Option S) (verifier : Option V)
  | RegisterVerifierWithType (typ : api.IdentityType) (identity : view.Identity)
      (verifier : Option V)
  | RegisterSigner (identity : view.Identity) (signer : Option S) (verifier : Option V)
  | RegisterVerifier (identity : view.Identity) (verifier : Option V)
  | RegisterAuditInfo (identity : view.Identity) (info : Bytes)
  | GetAuditInfo (identity : view.Identity)
  | Info (id : view.Identity)
  | GetSigner (identity : view.Identity)
  | GetVerifier (identity : view.Identity)
  | GetSigningIdentity (identity : view.Identity)
  | IdentityType (identity : view.Identity)

/-- The state the service is in after one call. -/
def exec (env : Env S) (o : service S V D K) : Op S V → service S V D K
  | .RegisterSignerWithType typ identity signer verifier =>
    (o.RegisterSignerWithType env typ identity signer verifier).2
  | .RegisterVerifierWithType typ identity verifier =>
    (o.RegisterVerifierWithType env typ identity verifier).2
  | .RegisterSigner identity signer verifier => (o.RegisterSigner env identity signer verifier).2
  | .RegisterVerifier identity verifier => (o.RegisterVerifier env identity verifier).2
  | .RegisterAuditInfo identity info => (o.RegisterAuditInfo env identity info).2
  | .GetAuditInfo identity => (o.GetAuditInfo env identity).2
  | .Info id => (o.Info env id).2
  | .GetSigner identity => (o.GetSigner env identity).2
  | .GetVerifier identity => (o.GetVerifier env identity).2
  | .GetSigningIdentity identity => (o.GetSigningIdentity env identity).2
  | .IdentityType _ => o

/-- The state after a sequence of calls, executed one after the other. -/
def run (env : Env S) (o : service S V D K) : List (Op S V) → service S V D K
  | [] => o
  | op :: ops => run env (exec env o op) ops

/-- How many times `DeserializeSigner` was called on `identity`, by the log of calls. -/
def signerCalls (calls : List Call) (identity : view.Identity) : Nat :=
  calls.count (Call.DeserializeSigner identity)

/-- How many times `DeserializeVerifier` was called on `identity`, by the log of calls. -/
def verifierCalls (calls : List Call) (identity : view.Identity) : Nat :=
  calls.count (Call.DeserializeVerifier identity)

/-- A store that behaves as a map and does not fail: `Put` returns no error, and after
`Put k v` the key `k` exists and `Get k` yields `v`. -/
structure KVS.MapLike (sp : KVS K) : Prop where
  put_ok : ∀ kv k v, (sp.Put kv k v).1 = none
  exists_put : ∀ kv k v, sp.Exists (sp.Put kv k v).2 k = true
  get_put : ∀ kv k v, sp.Get (sp.Put kv k v).2 k = Except.ok v

/-! ## Concrete collaborators, used to run the operations on examples -/

/-- An environment: identities are keyed and printed by their raw text, composite keys are
the namespace followed by the attributes, and no signer is a signing identity. -/
def demoEnv : Env Nat :=
  { UniqueID := rawString
    IdentityString := rawString
    CreateCompositeKeyOrPanic := fun objectType attributes => objectType ++ String.join attributes
    isSigningIdentity := fun _ => false }

/-- A store that is a map from keys to values and never fails on a key it holds. -/
def mapStore : KVS (String → Option Bytes) :=
  { Put := fun kv k v => (none, mapSet kv k v)
    Get := fun kv k =>
      match kv k with
      | some v => Except.ok v
      | none => Except.error (Error.New "key not found")
    Exists := fun kv k => (kv k).isSome }

/-- A deserializer that counts its calls and resolves every identity to signer `42` and
verifier `43`. -/
def countingDeserializer : Deserializer Nat Nat Nat :=
  { DeserializeSigner := fun n _ => (Except.ok (some 42), n + 1)
    DeserializeVerifier := fun n _ => (Except.ok (some 43), n + 1)
    Info := fun n _ _ => (Except.ok "an identity", n + 1) }

/-- A deserializer that counts its calls and fails every one of them. -/
def failingDeserializer : Deserializer Nat Nat Nat :=
  { DeserializeSigner := fun n _ => (Except.error (Error.New "no such signer"), n + 1)
    DeserializeVerifier := fun n _ => (Except.error (Error.New "no such verifier"), n + 1)
    Info := fun n _ _ => (Except.error (Error.New "no description"), n + 1) }

/-- The identity whose raw bytes spell "alice". -/
def alice : view.Identity := [97, 108, 105, 99, 101]

/-- A new registry over an empty map store, without deserializer. -/
def emptyService : service Nat Nat Nat (String → Option Bytes) :=
  NewSignService mapStore none (fun _ => none) 0

/-- A new registry over an empty map store, with the counting deserializer. -/
def countingService : service Nat Nat Nat (String → Option Bytes) :=
  NewSignService mapStore (some countingDeserializer) (fun _ => none) 0

/-- A new registry over an empty map store, with the failing deserializer. -/
def failingService : service Nat Nat Nat (String → Option Bytes) :=
  NewSignService mapStore (some failingDeserializer) (fun _ => none) 0

/-- The registry in which `alice` has been registered with `RegisterSigner`, signer `1` and
verifier `2`. -/
def aliceService : service Nat Nat Nat (String → Option Bytes) :=
  (countingService.RegisterSigner demoEnv alice (some 1) (some 2)).2

/-- The registry in which only a verifier has been registered for `alice`, with
`RegisterVerifier`. -/
def verifierOnlyService : service Nat Nat Nat (String → Option Bytes) :=
  (emptyService.RegisterVerifier demoEnv alice (some 2)).2

/-- A store in which every key exists and every `Put` and `Get` fails. -/
def brokenStore : KVS Unit :=
  { Put := fun kv _ _ => (some (Error.New "write failed"), kv)
    Get := fun _ _ => Except.error (Error.New "read failed")
    Exists := fun _ _ => true }

/-- A new registry over the broken store, with the counting deserializer. -/
def brokenService : service Nat Nat Nat Unit :=
  NewSignService brokenStore (some countingDeserializer) () 0

/-- The identity whose raw bytes spell "bob". -/
def bob : view.Identity := [98, 111, 98]

/-! ## The composite signing identity -/

namespace si

/-- The method `Verify` of `si`. -/
def Verify (_s : si S) (_message _signature : Bytes) : Outcome (Option Error) :=
  Outcome.panic "implement me"

/-- The method `GetPublicVersion` of `si`. -/
def GetPublicVersion (s : si S) : si S := s

/-- The method `Sign` of `si`, where `sign` is the method `Sign` of the signer objects and
`R` what a call to it yields.  Calling it through a nil signer panics. -/
def Sign {R : Type} (sign : S → Bytes → R) (s : si S) (bytes : Bytes) : Outcome R :=
  match s.signer with
  | none => Outcome.panic "invalid memory address or nil pointer dereference"
  | some signer => Outcome.ret (sign signer bytes)

/-- The method `Serialize` of `si`. -/
def Serialize (s : si S) : view.Identity × Option Error := (s.id, none)

end si

/-! ## Operations by identity -/

/-- The identity a call is made with. -/
def Op.identity : Op S V → view.Identity
  | .RegisterSignerWithType _ identity _ _ => identity
  | .RegisterVerifierWithType _ identity _ => identity
  | .RegisterSigner identity _ _ => identity
  | .RegisterVerifier identity _ => identity
  | .RegisterAuditInfo identity _ => identity
  | .GetAuditInfo identity => identity
  | .Info id => id
  | .GetSigner identity => identity
  | .GetVerifier identity => identity
  | .GetSigningIdentity identity => identity
  | .IdentityType identity => identity

/-- Whether a call is one of the methods that work on the three maps: the registrations,
the lookups and `IdentityType`; not the audit-info methods and `Info`. -/
def Op.onMaps : Op S V → Bool
  | .RegisterAuditInfo _ _ => false
  | .GetAuditInfo _ => false
  | .Info _ => false
  | _ => true

/-! ## Concurrent registrations

A registration call touches the maps only inside sections guarded by `viewsSync`.  A running
call is its arguments and the point it has reached; one step runs the next guarded section
together with the unguarded code up to the following one. -/

/-- The point a running registration call has reached: before the lookup of
`RegisterSignerWithType` (lines 51-53), before its store (lines 59-62), before the lookup of
`RegisterVerifierWithType` (lines 72-74), before its store (lines 80-83), or returned. -/
inductive Point where
  | signerLookup
  | signerStore
  | verifierLookup
  | verifierStore
  | returned (err : Option Error)
deriving DecidableEq, Repr

/-- A running registration call. -/
structure Registration (S V : Type) where
  typ : api.IdentityType
  identity : view.Identity
  signer : Option S
  verifier : Option V
  point : Point

/-- The unguarded start of `RegisterVerifierWithType`: the nil check. -/
def verifierEntry (verifier : Option V) : Point :=
  match verifier with
  | none => Point.returned (some (Error.New "invalid verifier, expected a valid instance"))
  | some _ => Point.verifierLookup

/-- A call of `RegisterSignerWithType` up to its first guarded section: the two nil checks. -/
def startRegisterSignerWithType (typ : api.IdentityType) (identity : view.Identity)
    (signer : Option S) (verifier : Option V) : Registration S V :=
  { typ := typ
    identity := identity
    signer := signer
    verifier := verifier
    point :=
      match signer with
      | none => Point.returned (some (Error.New "invalid signer, expected a valid instance"))
      | some _ =>
        match verifier with
        | none => Point.returned (some (Error.New "invalid verifier, expected a valid instance"))
        | some _ => Point.signerLookup }

/-- A call of `RegisterVerifierWithType` up to its first guarded section. -/
def startRegisterVerifierWithType (typ : api.IdentityType) (identity : view.Identity)
    (verifier : Option V) : Registration S V :=
  { typ := typ
    identity := identity
    signer := none
    verifier := verifier
    point := verifierEntry verifier }

/-- One step of a running registration call. -/
def Registration.step (env : Env S) (o : service S V D K) (r : Registration S V) :
    service S V D K × Registration S V :=
  match r.point with
  | Point.signerLookup =>
    match o.signers (env.UniqueID r.identity) with
    | some _ => (o, { r with point := Point.returned none })
    | none => (o, { r with point := Point.signerStore })
  | Point.signerStore =>
    ({ o with
        signers := mapSet o.signers (env.UniqueID r.identity) r.signer
        types := mapSet o.types (env.UniqueID r.identity) r.typ },
      { r with point := verifierEntry r.verifier })
  | Point.verifierLookup =>
    match o.verifiers (env.UniqueID r.identity) with
    | some _ => (o, { r with point := Point.returned none })
    | none => (o, { r with point := Point.verifierStore })
  | Point.verifierStore =>
    ({ o with
        verifiers := mapSet o.verifiers (env.UniqueID r.identity) r.verifier
        types := mapSet o.types (env.UniqueID r.identity) r.typ },
      { r with point := Point.returned none })
  | Point.returned _ => (o, r)

/-- A call running alone for `n` steps. -/
def Registration.steps (env : Env S) (o : service S V D K) (r : Registration S V) :
    Nat → service S V D K × Registration S V
  | 0 => (o, r)
  | n + 1 => Registration.steps env (r.step env o).1 (r.step env o).2 n

/-- Two calls `a` and `b` running concurrently under a schedule: at each entry the call `a`
steps if it is `true`, the call `b` if it is `false`. -/
def interleave (env : Env S) (o : service S V D K) (a b : Registration S V) :
    List Bool → service S V D K × Registration S V × Registration S V
  | [] => (o, a, b)
  | true :: schedule => interleave env (a.step env o).1 (a.step env o).2 b schedule
  | false :: schedule => interleave env (b.step env o).1 a (b.step env o).2 schedule

/-- The schedule in which both calls finish their lookup before either stores, and then run
to their end. -/
def racingSchedule : List Bool := [true, false, true, false, true, true, false]

/-! ## Registration -/

/-- C1: on a state where the canonical string of `identity` has neither signer nor verifier,
`RegisterSignerWithType typ identity s v` with present `s` and `v` returns no error, and in the
resulting state `GetSigner identity` returns `s` and `GetVerifier identity` returns `v`, both
leaving the state (and so the log of deserializer calls) as it is, and `IdentityType identity`
returns `typ`. -/
theorem registerSignerWithType_then_get (env : Env S) (o : service S V D K)
    (typ : api.IdentityType) (identity : view.Identity) (s : S) (v : V)
    (hs : o.signers (env.UniqueID identity) = none)
    (hv : o.verifiers (env.UniqueID identity) = none) :
    (o.RegisterSignerWithType env typ identity (some s) (some v)).1 = none ∧
    (o.RegisterSignerWithType env typ identity (some s) (some v)).2.GetSigner env identity =
      ((some s, none), (o.RegisterSignerWithType env typ identity (some s) (some v)).2) ∧
    (o.RegisterSignerWithType env typ identity (some s) (some v)).2.GetVerifier env identity =
      ((some v, none), (o.RegisterSignerWithType env typ identity (some s) (some v)).2) ∧
    (o.RegisterSignerWithType env typ identity (some s) (some v)).2.IdentityType env identity =
      typ := by
  simp [service.RegisterSignerWithType, service.RegisterVerifierWithType, service.GetSigner,
    service.GetVerifier, service.IdentityType, mapSet, hs, hv]

/-- C1 at the scenario of the specification: `alice` registered with `MSPIdentity`, signer `1`
and verifier `2` on a new registry. -/
theorem registerSignerWithType_then_get_witness :
    emptyService.signers (demoEnv.UniqueID alice) = none ∧
    emptyService.verifiers (demoEnv.UniqueID alice) = none ∧
    (emptyService.RegisterSignerWithType demoEnv api.MSPIdentity alice (some 1) (some 2)).1
      = none ∧
    (emptyService.RegisterSignerWithType demoEnv api.MSPIdentity alice (some 1)
      (some 2)).2.GetSigner demoEnv alice =
      ((some 1, none),
        (emptyService.RegisterSignerWithType demoEnv api.MSPIdentity alice (some 1) (some 2)).2) ∧
    (emptyService.RegisterSignerWithType demoEnv api.MSPIdentity alice (some 1)
      (some 2)).2.GetVerifier demoEnv alice =
      ((some 2, none),
        (emptyService.RegisterSignerWithType demoEnv api.MSPIdentity alice (some 1) (some 2)).2) ∧
    (emptyService.RegisterSignerWithType demoEnv api.MSPIdentity alice (some 1)
      (some 2)).2.IdentityType demoEnv alice = api.MSPIdentity :=
  ⟨rfl, rfl, registerSignerWithType_then_get demoEnv emptyService api.MSPIdentity alice 1 2
    rfl rfl⟩

/-- C2: when a signer is already bound to the canonical string of `identity`,
`RegisterSignerWithType` with present arguments returns no error and the state it returns is
the state it was given; the same for `RegisterVerifierWithType` when a verifier is bound.  So
after registering `(s1, v1)` for an identity with nothing bound and then `(s2, v2)` for the
same identity, the second call returns no error and `GetSigner`, `GetVerifier` still return
`s1` and `v1`. -/
theorem register_first_wins (env : Env S) (o : service S V D K) (typ1 typ2 : api.IdentityType)
    (identity : view.Identity) (s1 s2 : S) (v1 v2 : V) :
    (o.signers (env.UniqueID identity) ≠ none →
      o.RegisterSignerWithType env typ2 identity (some s2) (some v2) = (none, o)) ∧
    (o.verifiers (env.UniqueID identity) ≠ none →
      o.RegisterVerifierWithType env typ2 identity (some v2) = (none, o)) ∧
    (o.signers (env.UniqueID identity) = none → o.verifiers (env.UniqueID identity) = none →
      ((o.RegisterSignerWithType env typ1 identity (some s1) (some v1)).2.RegisterSignerWithType
          env typ2 identity (some s2) (some v2)).1 = none ∧
      (((o.RegisterSignerWithType env typ1 identity (some s1) (some v1)).2.RegisterSignerWithType
          env typ2 identity (some s2) (some v2)).2.GetSigner env identity).1 = (some s1, none) ∧
      (((o.RegisterSignerWithType env typ1 identity (some s1) (some v1)).2.RegisterSignerWithType
          env typ2 identity (some s2) (some v2)).2.GetVerifier env identity).1 =
        (some v1, none)) := by
  refine ⟨?_, ?_, ?_⟩
  · intro h
    cases hk : o.signers (env.UniqueID identity) with
    | none => exact absurd hk h
    | some x => simp [service.RegisterSignerWithType, hk]
  · intro h
    cases hk : o.verifiers (env.UniqueID identity) with
    | none => exact absurd hk h
    | some x => simp [service.RegisterVerifierWithType, hk]
  · intro hs hv
    simp [service.RegisterSignerWithType, service.RegisterVerifierWithType, service.GetSigner,
      service.GetVerifier, mapSet, hs, hv]

/-- C2 on the registry in which `alice` was registered with signer `1` and verifier `2`: a
second registration with signer `3` and verifier `4` changes nothing. -/
theorem register_first_wins_witness :
    ((emptyService.RegisterSignerWithType demoEnv 1 alice (some 1) (some 2)).2.signers
        (demoEnv.UniqueID alice) ≠ none ∧
      (emptyService.RegisterSignerWithType demoEnv 1 alice (some 1) (some 2)).2.verifiers
        (demoEnv.UniqueID alice) ≠ none) ∧
    (emptyService.RegisterSignerWithType demoEnv 1 alice (some 1) (some 2)).2.RegisterSignerWithType
        demoEnv 7 alice (some 3) (some 4) =
      (none, (emptyService.RegisterSignerWithType demoEnv 1 alice (some 1) (some 2)).2) ∧
    (emptyService.RegisterSignerWithType demoEnv 1 alice (some 1)
        (some 2)).2.RegisterVerifierWithType demoEnv 7 alice (some 4) =
      (none, (emptyService.RegisterSignerWithType demoEnv 1 alice (some 1) (some 2)).2) ∧
    (((emptyService.RegisterSignerWithType demoEnv 1 alice (some 1)
        (some 2)).2.RegisterSignerWithType demoEnv 7 alice (some 3) (some 4)).2.GetSigner
          demoEnv alice).1 = (some 1, none) ∧
    (((emptyService.RegisterSignerWithType demoEnv 1 alice (some 1)
        (some 2)).2.RegisterSignerWithType demoEnv 7 alice (some 3) (some 4)).2.GetVerifier
          demoEnv alice).1 = (some 2, none) := by
  have hs : (emptyService.RegisterSignerWithType demoEnv 1 alice (some 1) (some 2)).2.signers
      (demoEnv.UniqueID alice) ≠ none := by
    simp [service.RegisterSignerWithType, service.RegisterVerifierWithType, emptyService,
      NewSignService, mapSet]
  have hv : (emptyService.RegisterSignerWithType demoEnv 1 alice (some 1) (some 2)).2.verifiers
      (demoEnv.UniqueID alice) ≠ none := by
    simp [service.RegisterSignerWithType, service.RegisterVerifierWithType, emptyService,
      NewSignService, mapSet]
  have h := register_first_wins demoEnv
    (emptyService.RegisterSignerWithType demoEnv 1 alice (some 1) (some 2)).2 1 7 alice 1 3 2 4
  have h0 := register_first_wins demoEnv emptyService 1 7 alice 1 3 2 4
  exact ⟨⟨hs, hv⟩, h.1 hs, h.2.1 hv, (h0.2.2 rfl rfl).2.1, (h0.2.2 rfl rfl).2.2⟩

/-! ## Step invariants -/

/-- The method `GetAuditInfo` changes nothing but the log of calls. -/
theorem GetAuditInfo_frame (env : Env S) (o : service S V D K) (identity : view.Identity) :
    (o.GetAuditInfo env identity).2.signers = o.signers ∧
    (o.GetAuditInfo env identity).2.verifiers = o.verifiers ∧
    (o.GetAuditInfo env identity).2.types = o.types ∧
    (o.GetAuditInfo env identity).2.deserializer = o.deserializer ∧
    (o.GetAuditInfo env identity).2.ds = o.ds ∧
    (o.GetAuditInfo env identity).2.kv = o.kv ∧
    (o.GetAuditInfo env identity).2.sp = o.sp := by
  unfold service.GetAuditInfo
  dsimp only
  split
  · split <;> simp
  · simp

/-- The method `RegisterAuditInfo` leaves the three maps as they are. -/
theorem RegisterAuditInfo_frame (env : Env S) (o : service S V D K) (identity : view.Identity)
    (info : Bytes) :
    (o.RegisterAuditInfo env identity info).2.signers = o.signers ∧
    (o.RegisterAuditInfo env identity info).2.verifiers = o.verifiers ∧
    (o.RegisterAuditInfo env identity info).2.types = o.types := by
  unfold service.RegisterAuditInfo
  dsimp only
  split <;> simp

/-- The method `Info` leaves the three maps as they are. -/
theorem Info_frame (env : Env S) (o : service S V D K) (id : view.Identity) :
    (o.Info env id).2.signers = o.signers ∧
    (o.Info env id).2.verifiers = o.verifiers ∧
    (o.Info env id).2.types = o.types := by
  have h := GetAuditInfo_frame env o id
  unfold service.Info
  generalize o.GetAuditInfo env id = r at h
  obtain ⟨⟨a, e⟩, o1⟩ := r
  obtain ⟨h1, h2, h3, -⟩ := h
  simp only at h1 h2 h3
  cases e with
  | some err => exact ⟨h1, h2, h3⟩
  | none =>
    dsimp only
    split
    · exact ⟨h1, h2, h3⟩
    · split <;> exact ⟨h1, h2, h3⟩

/-- The method `GetSigner` keeps every bound signer and leaves the other two maps as they
are. -/
theorem GetSigner_frame (env : Env S) (o : service S V D K) (identity : view.Identity) :
    (∀ k x, o.signers k = some x → (o.GetSigner env identity).2.signers k = some x) ∧
    (o.GetSigner env identity).2.verifiers = o.verifiers ∧
    (o.GetSigner env identity).2.types = o.types := by
  unfold service.GetSigner
  split
  · exact ⟨fun _ _ h => h, rfl, rfl⟩
  · rename_i hk
    split
    · exact ⟨fun _ _ h => h, rfl, rfl⟩
    · split
      · exact ⟨fun _ _ h => h, rfl, rfl⟩
      · refine ⟨fun k x h => ?_, rfl, rfl⟩
        have hne : k ≠ env.UniqueID identity := fun hkk => by simp [hkk, hk] at h
        simp [mapSet, hne, h]

/-- The method `GetVerifier` keeps every bound verifier and leaves the other two maps as they
are. -/
theorem GetVerifier_frame (env : Env S) (o : service S V D K) (identity : view.Identity) :
    (∀ k x, o.verifiers k = some x → (o.GetVerifier env identity).2.verifiers k = some x) ∧
    (o.GetVerifier env identity).2.signers = o.signers ∧
    (o.GetVerifier env identity).2.types = o.types := by
  unfold service.GetVerifier
  split
  · exact ⟨fun _ _ h => h, rfl, rfl⟩
  · rename_i hk
    split
    · exact ⟨fun _ _ h => h, rfl, rfl⟩
    · split
      · exact ⟨fun _ _ h => h, rfl, rfl⟩
      · refine ⟨fun k x h => ?_, rfl, rfl⟩
        have hne : k ≠ env.UniqueID identity := fun hkk => by simp [hkk, hk] at h
        simp [mapSet, hne, h]

/-- The state after `GetSigningIdentity` is the state after `GetSigner`. -/
theorem GetSigningIdentity_state (env : Env S) (o : service S V D K)
    (identity : view.Identity) :
    (o.GetSigningIdentity env identity).2 = (o.GetSigner env identity).2 := by
  unfold service.GetSigningIdentity
  generalize o.GetSigner env identity = r
  obtain ⟨⟨a, e⟩, o1⟩ := r
  cases e with
  | some err => rfl
  | none =>
    cases a with
    | none => rfl
    | some s =>
      dsimp only
      split <;> rfl

/-- The method `RegisterVerifierWithType` keeps every bound verifier and leaves the signers
as they are. -/
theorem RegisterVerifierWithType_frame (env : Env S) (o : service S V D K)
    (typ : api.IdentityType) (identity : view.Identity) (verifier : Option V) :
    (∀ k x, o.verifiers k = some x →
      (o.RegisterVerifierWithType env typ identity verifier).2.verifiers k = some x) ∧
    (o.RegisterVerifierWithType env typ identity verifier).2.signers = o.signers := by
  unfold service.RegisterVerifierWithType
  split
  · exact ⟨fun _ _ h => h, rfl⟩
  · split
    · exact ⟨fun _ _ h => h, rfl⟩
    · rename_i hk
      refine ⟨fun k x h => ?_, rfl⟩
      have hne : k ≠ env.UniqueID identity := fun hkk => by simp [hkk, hk] at h
      simp [mapSet, hne, h]

/-- The method `RegisterSignerWithType` keeps every bound signer and every bound verifier. -/
theorem RegisterSignerWithType_frame (env : Env S) (o : service S V D K)
    (typ : api.IdentityType) (identity : view.Identity) (signer : Option S)
    (verifier : Option V) :
    (∀ k x, o.signers k = some x →
      (o.RegisterSignerWithType env typ identity signer verifier).2.signers k = some x) ∧
    (∀ k x, o.verifiers k = some x →
      (o.RegisterSignerWithType env typ identity signer verifier).2.verifiers k = some x) := by
  unfold service.RegisterSignerWithType
  split
  · exact ⟨fun _ _ h => h, fun _ _ h => h⟩
  · split
    · exact ⟨fun _ _ h => h, fun _ _ h => h⟩
    · split
      · exact ⟨fun _ _ h => h, fun _ _ h => h⟩
      · rename_i hk
        constructor
        · intro k x h
          rw [(RegisterVerifierWithType_frame env _ typ identity _).2]
          have hne : k ≠ env.UniqueID identity := fun hkk => by simp [hkk, hk] at h
          simp [mapSet, hne, h]
        · intro k x h
          exact (RegisterVerifierWithType_frame env _ typ identity _).1 k x h

/-- A signer bound to a key is still bound to it after any call. -/
theorem exec_signers_of_bound (env : Env S) (o : service S V D K) (op : Op S V) (k : String)
    (x : Option S) (h : o.signers k = some x) : (exec env o op).signers k = some x := by
  cases op with
  | RegisterSignerWithType typ identity signer verifier =>
    exact (RegisterSignerWithType_frame env o typ identity signer verifier).1 k x h
  | RegisterVerifierWithType typ identity verifier =>
    simp only [exec, (RegisterVerifierWithType_frame env o typ identity verifier).2, h]
  | RegisterSigner identity signer verifier =>
    exact (RegisterSignerWithType_frame env o api.MSPIdentity identity signer verifier).1 k x h
  | RegisterVerifier identity verifier =>
    simp only [exec, service.RegisterVerifier,
      (RegisterVerifierWithType_frame env o api.MSPIdentity identity verifier).2, h]
  | RegisterAuditInfo identity info =>
    simp only [exec, (RegisterAuditInfo_frame env o identity info).1, h]
  | GetAuditInfo identity => simp only [exec, (GetAuditInfo_frame env o identity).1, h]
  | Info id => simp only [exec, (Info_frame env o id).1, h]
  | GetSigner identity => exact (GetSigner_frame env o identity).1 k x h
  | GetVerifier identity => simp only [exec, (GetVerifier_frame env o identity).2.1, h]
  | GetSigningIdentity identity =>
    simp only [exec, GetSigningIdentity_state]
    exact (GetSigner_frame env o identity).1 k x h
  | IdentityType identity => exact h

/-- A verifier bound to a key is still bound to it after any call. -/
theorem exec_verifiers_of_bound (env : Env S) (o : service S V D K) (op : Op S V) (k : String)
    (x : Option V) (h : o.verifiers k = some x) : (exec env o op).verifiers k = some x := by
  cases op with
  | RegisterSignerWithType typ identity signer verifier =>
    exact (RegisterSignerWithType_frame env o typ identity signer verifier).2 k x h
  | RegisterVerifierWithType typ identity verifier =>
    exact (RegisterVerifierWithType_frame env o typ identity verifier).1 k x h
  | RegisterSigner identity signer verifier =>
    exact (RegisterSignerWithType_frame env o api.MSPIdentity identity signer verifier).2 k x h
  | RegisterVerifier identity verifier =>
    exact (RegisterVerifierWithType_frame env o api.MSPIdentity identity verifier).1 k x h
  | RegisterAuditInfo identity info =>
    simp only [exec, (RegisterAuditInfo_frame env o identity info).2.1, h]
  | GetAuditInfo identity => simp only [exec, (GetAuditInfo_frame env o identity).2.1, h]
  | Info id => simp only [exec, (Info_frame env o id).2.1, h]
  | GetSigner identity => simp only [exec, (GetSigner_frame env o identity).2.1, h]
  | GetVerifier identity => exact (GetVerifier_frame env o identity).1 k x h
  | GetSigningIdentity identity =>
    simp only [exec, GetSigningIdentity_state, (GetSigner_frame env o identity).2.1, h]
  | IdentityType identity => exact h

/-- A signer bound to a key is still bound to it after any sequence of calls. -/
theorem run_signers_of_bound (env : Env S) (ops : List (Op S V)) (o : service S V D K)
    (k : String) (x : Option S) (h : o.signers k = some x) :
    (run env o ops).signers k = some x := by
  induction ops generalizing o with
  | nil => exact h
  | cons op ops ih => exact ih (exec env o op) (exec_signers_of_bound env o op k x h)

/-- A verifier bound to a key is still bound to it after any sequence of calls. -/
theorem run_verifiers_of_bound (env : Env S) (ops : List (Op S V)) (o : service S V D K)
    (k : String) (x : Option V) (h : o.verifiers k = some x) :
    (run env o ops).verifiers k = some x := by
  induction ops generalizing o with
  | nil => exact h
  | cons op ops ih => exact ih (exec env o op) (exec_verifiers_of_bound env o op k x h)

/-- C3: for every state, every public operation with any arguments and every key `k`, a
signer bound to `k` before the operation is the signer bound to `k` after it, and a verifier
bound to `k` before is the verifier bound to `k` after; the same holds over every sequence of
operations.  In particular a lazy `GetSigner` or `GetVerifier` does not replace a binding. -/
theorem binding_permanence (env : Env S) (o : service S V D K) (op : Op S V) (k : String) :
    (∀ s, o.signers k = some s → (exec env o op).signers k = some s) ∧
    (∀ v, o.verifiers k = some v → (exec env o op).verifiers k = some v) ∧
    (∀ ops s, o.signers k = some s → (run env o ops).signers k = some s) ∧
    (∀ ops v, o.verifiers k = some v → (run env o ops).verifiers k = some v) :=
  ⟨fun s h => exec_signers_of_bound env o op k s h,
    fun v h => exec_verifiers_of_bound env o op k v h,
    fun ops s h => run_signers_of_bound env ops o k s h,
    fun ops v h => run_verifiers_of_bound env ops o k v h⟩

/-- C3 on the registry where `alice` has signer `1` and verifier `2`: a lazy `GetSigner` and a
further registration leave both bindings in place. -/
theorem binding_permanence_witness :
    aliceService.signers (demoEnv.UniqueID alice) = some (some 1) ∧
    aliceService.verifiers (demoEnv.UniqueID alice) = some (some 2) ∧
    (exec demoEnv aliceService (Op.RegisterSignerWithType 7 alice (some 3) (some 4))).signers
      (demoEnv.UniqueID alice) = some (some 1) ∧
    (exec demoEnv aliceService (Op.RegisterVerifierWithType 7 alice (some 4))).verifiers
      (demoEnv.UniqueID alice) = some (some 2) ∧
    (run demoEnv aliceService [Op.GetSigner alice, Op.GetVerifier alice, Op.Info alice]).signers
      (demoEnv.UniqueID alice) = some (some 1) := by
  have hs : aliceService.signers (demoEnv.UniqueID alice) = some (some 1) := by
    simp [aliceService, countingService, NewSignService, service.RegisterSigner,
      service.RegisterSignerWithType, service.RegisterVerifierWithType, mapSet]
  have hv : aliceService.verifiers (demoEnv.UniqueID alice) = some (some 2) := by
    simp [aliceService, countingService, NewSignService, service.RegisterSigner,
      service.RegisterSignerWithType, service.RegisterVerifierWithType, mapSet]
  exact ⟨hs, hv,
    (binding_permanence demoEnv aliceService (Op.RegisterSignerWithType 7 alice (some 3)
      (some 4)) (demoEnv.UniqueID alice)).1 _ hs,
    (binding_permanence demoEnv aliceService (Op.RegisterVerifierWithType 7 alice (some 4))
      (demoEnv.UniqueID alice)).2.1 _ hv,
    (binding_permanence demoEnv aliceService (Op.GetSigner alice)
      (demoEnv.UniqueID alice)).2.2.1 _ _ hs⟩

/-- The method `RegisterVerifierWithType` changes the type bound to a key only when it binds
a verifier to that key. -/
theorem RegisterVerifierWithType_types (env : Env S) (o : service S V D K)
    (typ : api.IdentityType) (identity : view.Identity) (verifier : Option V) (k : String)
    (hv : (o.RegisterVerifierWithType env typ identity verifier).2.verifiers k = o.verifiers k) :
    (o.RegisterVerifierWithType env typ identity verifier).2.types k = o.types k := by
  unfold service.RegisterVerifierWithType at hv ⊢
  split
  · rfl
  · split
    · rfl
    · rename_i hk
      by_cases hkk : k = env.UniqueID identity
      · subst hkk
        simp [hk, mapSet] at hv
      · simp [mapSet, hkk]

/-- The method `RegisterSignerWithType` changes the type bound to a key only when it binds a
signer to that key. -/
theorem RegisterSignerWithType_types (env : Env S) (o : service S V D K)
    (typ : api.IdentityType) (identity : view.Identity) (signer : Option S)
    (verifier : Option V) (k : String)
    (hs : (o.RegisterSignerWithType env typ identity signer verifier).2.signers k =
      o.signers k) :
    (o.RegisterSignerWithType env typ identity signer verifier).2.types k = o.types k := by
  cases signer with
  | none => rfl
  | some x =>
    cases verifier with
    | none => rfl
    | some y =>
      cases hk : o.signers (env.UniqueID identity) with
      | some z => simp only [service.RegisterSignerWithType, hk]
      | none =>
        simp only [service.RegisterSignerWithType, hk] at hs ⊢
        by_cases hkk : k = env.UniqueID identity
        · subst hkk
          rw [(RegisterVerifierWithType_frame env _ typ identity _).2] at hs
          simp [hk, mapSet] at hs
        · unfold service.RegisterVerifierWithType
          split
          · simp [mapSet, hkk]
          · split <;> simp [mapSet, hkk]

/-- The type bound to a key is kept by every call that leaves the signer and the verifier of
that key as they are. -/
theorem exec_types_of_same_bindings (env : Env S) (o : service S V D K) (op : Op S V)
    (k : String) (hs : (exec env o op).signers k = o.signers k)
    (hv : (exec env o op).verifiers k = o.verifiers k) :
    (exec env o op).types k = o.types k := by
  cases op with
  | RegisterSignerWithType typ identity signer verifier =>
    exact RegisterSignerWithType_types env o typ identity signer verifier k hs
  | RegisterVerifierWithType typ identity verifier =>
    exact RegisterVerifierWithType_types env o typ identity verifier k hv
  | RegisterSigner identity signer verifier =>
    exact RegisterSignerWithType_types env o api.MSPIdentity identity signer verifier k hs
  | RegisterVerifier identity verifier =>
    exact RegisterVerifierWithType_types env o api.MSPIdentity identity verifier k hv
  | RegisterAuditInfo identity info =>
    simp only [exec, (RegisterAuditInfo_frame env o identity info).2.2]
  | GetAuditInfo identity => simp only [exec, (GetAuditInfo_frame env o identity).2.2.1]
  | Info id => simp only [exec, (Info_frame env o id).2.2]
  | GetSigner identity => simp only [exec, (GetSigner_frame env o identity).2.2]
  | GetVerifier identity => simp only [exec, (GetVerifier_frame env o identity).2.2]
  | GetSigningIdentity identity =>
    simp only [exec, GetSigningIdentity_state, (GetSigner_frame env o identity).2.2]
  | IdentityType identity => rfl

/-- C4, refuted as stated: on the registry where `RegisterVerifier` bound a verifier for
`alice`, the type map holds `MSPIdentity` for her key; `RegisterSignerWithType` with type
`Unknown` then finds no signer bound, binds one and writes `Unknown` over the type. -/
theorem type_set_once_counterexample :
    verifierOnlyService.types (demoEnv.UniqueID alice) = some api.MSPIdentity ∧
    (exec demoEnv verifierOnlyService
      (Op.RegisterSignerWithType api.Unknown alice (some 5) (some 9))).types
        (demoEnv.UniqueID alice) = some api.Unknown ∧
    (exec demoEnv verifierOnlyService
      (Op.RegisterSignerWithType api.Unknown alice (some 5) (some 9))).types
        (demoEnv.UniqueID alice) ≠ some api.MSPIdentity := by
  simp [verifierOnlyService, emptyService, NewSignService, exec, service.RegisterVerifier,
    service.RegisterSignerWithType, service.RegisterVerifierWithType, mapSet, api.Unknown,
    api.MSPIdentity]

/-- C5: `RegisterSignerWithType` returns an error whenever the signer is nil or the verifier
is nil, `RegisterVerifierWithType` returns an error whenever the verifier is nil, and in each
of these calls the state returned is the state given: no map is written, and a present signer
passed with a nil verifier is not bound. -/
theorem invalid_argument_atomic (env : Env S) (o : service S V D K) (typ : api.IdentityType)
    (identity : view.Identity) :
    (∀ verifier : Option V,
      (o.RegisterSignerWithType env typ identity none verifier).1 ≠ none ∧
      (o.RegisterSignerWithType env typ identity none verifier).2 = o) ∧
    (∀ signer : Option S,
      (o.RegisterSignerWithType env typ identity signer none).1 ≠ none ∧
      (o.RegisterSignerWithType env typ identity signer none).2 = o) ∧
    (o.RegisterVerifierWithType env typ identity none).1 ≠ none ∧
    (o.RegisterVerifierWithType env typ identity none).2 = o := by
  refine ⟨fun verifier => ?_, fun signer => ?_, ?_⟩
  · simp [service.RegisterSignerWithType]
  · cases signer <;> simp [service.RegisterSignerWithType]
  · simp [service.RegisterVerifierWithType]

/-! ## Lazy resolution -/

/-- No registration call reaches a collaborator. -/
theorem register_calls (env : Env S) (o : service S V D K) (typ : api.IdentityType)
    (identity : view.Identity) (signer : Option S) (verifier : Option V) :
    (o.RegisterVerifierWithType env typ identity verifier).2.calls = o.calls ∧
    (o.RegisterSignerWithType env typ identity signer verifier).2.calls = o.calls := by
  have hv : ∀ o1 : service S V D K,
      (o1.RegisterVerifierWithType env typ identity verifier).2.calls = o1.calls := by
    intro o1
    unfold service.RegisterVerifierWithType
    split
    · rfl
    · split <;> rfl
  refine ⟨hv o, ?_⟩
  unfold service.RegisterSignerWithType
  split
  · rfl
  · split
    · rfl
    · split
      · rfl
      · rw [hv]

/-- The audit-info methods never call `DeserializeSigner` or `DeserializeVerifier`. -/
theorem auditInfo_calls (env : Env S) (o : service S V D K) (identity : view.Identity)
    (info : Bytes) (c : Call) (hp : ∀ k b, c ≠ Call.Put k b) (hg : ∀ k, c ≠ Call.Get k)
    (he : ∀ k, c ≠ Call.Exists k) :
    (o.RegisterAuditInfo env identity info).2.calls.count c = o.calls.count c ∧
    (o.GetAuditInfo env identity).2.calls.count c = o.calls.count c := by
  constructor
  · unfold service.RegisterAuditInfo
    dsimp only
    split <;> simp [List.count_cons, (hp _ _).symm]
  · unfold service.GetAuditInfo
    dsimp only
    split
    · split <;> simp [List.count_cons, (hg _).symm, (he _).symm]
    · simp [List.count_cons, (he _).symm]

/-- The method `Info` never calls `DeserializeSigner` or `DeserializeVerifier`. -/
theorem Info_calls (env : Env S) (o : service S V D K) (id : view.Identity) (c : Call)
    (hp : ∀ k b, c ≠ Call.Put k b) (hg : ∀ k, c ≠ Call.Get k) (he : ∀ k, c ≠ Call.Exists k)
    (hi : ∀ i b, c ≠ Call.DeserializerInfo i b) :
    (o.Info env id).2.calls.count c = o.calls.count c := by
  have h := (auditInfo_calls env o id none c hp hg he).2
  unfold service.Info
  generalize o.GetAuditInfo env id = r at h
  obtain ⟨⟨a, e⟩, o1⟩ := r
  simp only at h
  cases e with
  | some err => exact h
  | none =>
    dsimp only
    split
    · exact h
    · split <;> simp [List.count_cons, (hi _ _).symm, h]

/-- Once a signer is bound to the key of `identity`, no call makes the service ask the
deserializer for a signer of `identity`. -/
theorem exec_signerCalls (env : Env S) (o : service S V D K) (op : Op S V)
    (identity : view.Identity) (x : Option S)
    (h : o.signers (env.UniqueID identity) = some x) :
    signerCalls (exec env o op).calls identity = signerCalls o.calls identity := by
  have hget : ∀ j, signerCalls (o.GetSigner env j).2.calls identity =
      signerCalls o.calls identity := by
    intro j
    unfold service.GetSigner signerCalls
    split
    · rfl
    · rename_i hk
      have hne : j ≠ identity := fun hj => by simp [hj, h] at hk
      split
      · rfl
      · split <;> simp [List.count_cons, hne]
  cases op with
  | RegisterSignerWithType typ j signer verifier =>
    simp only [exec, (register_calls env o typ j signer verifier).2]
  | RegisterVerifierWithType typ j verifier =>
    simp only [exec, (register_calls env o typ j (none : Option S) verifier).1]
  | RegisterSigner j signer verifier =>
    simp only [exec, service.RegisterSigner,
      (register_calls env o api.MSPIdentity j signer verifier).2]
  | RegisterVerifier j verifier =>
    simp only [exec, service.RegisterVerifier,
      (register_calls env o api.MSPIdentity j (none : Option S) verifier).1]
  | RegisterAuditInfo j info =>
    exact (auditInfo_calls env o j info _ (by simp) (by simp) (by simp)).1
  | GetAuditInfo j => exact (auditInfo_calls env o j none _ (by simp) (by simp) (by simp)).2
  | Info j => exact Info_calls env o j _ (by simp) (by simp) (by simp) (by simp)
  | GetSigner j => exact hget j
  | GetVerifier j =>
    simp only [exec]
    unfold service.GetVerifier signerCalls
    split
    · rfl
    · split
      · rfl
      · split <;> simp [List.count_cons]
  | GetSigningIdentity j =>
    simp only [exec, GetSigningIdentity_state]
    exact hget j
  | IdentityType j => rfl

/-- Once a verifier is bound to the key of `identity`, no call makes the service ask the
deserializer for a verifier of `identity`. -/
theorem exec_verifierCalls (env : Env S) (o : service S V D K) (op : Op S V)
    (identity : view.Identity) (x : Option V)
    (h : o.verifiers (env.UniqueID identity) = some x) :
    verifierCalls (exec env o op).calls identity = verifierCalls o.calls identity := by
  have hget : ∀ j, verifierCalls (o.GetSigner env j).2.calls identity =
      verifierCalls o.calls identity := by
    intro j
    unfold service.GetSigner verifierCalls
    split
    · rfl
    · split
      · rfl
      · split <;> simp [List.count_cons]
  cases op with
  | RegisterSignerWithType typ j signer verifier =>
    simp only [exec, (register_calls env o typ j signer verifier).2]
  | RegisterVerifierWithType typ j verifier =>
    simp only [exec, (register_calls env o typ j (none : Option S) verifier).1]
  | RegisterSigner j signer verifier =>
    simp only [exec, service.RegisterSigner,
      (register_calls env o api.MSPIdentity j signer verifier).2]
  | RegisterVerifier j verifier =>
    simp only [exec, service.RegisterVerifier,
      (register_calls env o api.MSPIdentity j (none : Option S) verifier).1]
  | RegisterAuditInfo j info =>
    exact (auditInfo_calls env o j info _ (by simp) (by simp) (by simp)).1
  | GetAuditInfo j => exact (auditInfo_calls env o j none _ (by simp) (by simp) (by simp)).2
  | Info j => exact Info_calls env o j _ (by simp) (by simp) (by simp) (by simp)
  | GetSigner j => exact hget j
  | GetVerifier j =>
    simp only [exec]
    unfold service.GetVerifier verifierCalls
    split
    · rfl
    · rename_i hk
      have hne : j ≠ identity := fun hj => by simp [hj, h] at hk
      split
      · rfl
      · split <;> simp [List.count_cons, hne]
  | GetSigningIdentity j =>
    simp only [exec, GetSigningIdentity_state]
    exact hget j
  | IdentityType j => rfl

/-- Over a sequence of calls, the number of `DeserializeSigner` calls for an identity whose
key has a signer stays what it was. -/
theorem run_signerCalls (env : Env S) (ops : List (Op S V)) (o : service S V D K)
    (identity : view.Identity) (x : Option S)
    (h : o.signers (env.UniqueID identity) = some x) :
    signerCalls (run env o ops).calls identity = signerCalls o.calls identity := by
  induction ops generalizing o with
  | nil => rfl
  | cons op ops ih =>
    exact (ih (exec env o op) (exec_signers_of_bound env o op _ x h)).trans
      (exec_signerCalls env o op identity x h)

/-- Over a sequence of calls, the number of `DeserializeVerifier` calls for an identity whose
key has a verifier stays what it was. -/
theorem run_verifierCalls (env : Env S) (ops : List (Op S V)) (o : service S V D K)
    (identity : view.Identity) (x : Option V)
    (h : o.verifiers (env.UniqueID identity) = some x) :
    verifierCalls (run env o ops).calls identity = verifierCalls o.calls identity := by
  induction ops generalizing o with
  | nil => rfl
  | cons op ops ih =>
    exact (ih (exec env o op) (exec_verifiers_of_bound env o op _ x h)).trans
      (exec_verifierCalls env o op identity x h)

/-- A lookup of a bound signer returns it and changes nothing. -/
theorem GetSigner_hit (env : Env S) (o : service S V D K) (identity : view.Identity)
    (x : Option S) (h : o.signers (env.UniqueID identity) = some x) :
    o.GetSigner env identity = ((x, none), o) := by
  simp [service.GetSigner, h]

/-- A lookup of a bound verifier returns it and changes nothing. -/
theorem GetVerifier_hit (env : Env S) (o : service S V D K) (identity : view.Identity)
    (x : Option V) (h : o.verifiers (env.UniqueID identity) = some x) :
    o.GetVerifier env identity = ((x, none), o) := by
  simp [service.GetVerifier, h]

/-- A lookup of an unbound signer that the deserializer resolves. -/
theorem GetSigner_resolved (env : Env S) (o : service S V D K) (identity : view.Identity)
    (d : Deserializer S V D) (s : Option S) (ds1 : D) (hd : o.deserializer = some d)
    (hk : o.signers (env.UniqueID identity) = none)
    (hr : d.DeserializeSigner o.ds identity = (Except.ok s, ds1)) :
    o.GetSigner env identity = ((s, none),
      { o with
        signers := mapSet o.signers (env.UniqueID identity) s
        ds := ds1
        calls := o.calls ++ [Call.DeserializeSigner identity] }) := by
  simp [service.GetSigner, hd, hk, hr]

/-- A lookup of an unbound verifier that the deserializer resolves. -/
theorem GetVerifier_resolved (env : Env S) (o : service S V D K) (identity : view.Identity)
    (d : Deserializer S V D) (v : Option V) (ds1 : D) (hd : o.deserializer = some d)
    (hk : o.verifiers (env.UniqueID identity) = none)
    (hr : d.DeserializeVerifier o.ds identity = (Except.ok v, ds1)) :
    o.GetVerifier env identity = ((v, none),
      { o with
        verifiers := mapSet o.verifiers (env.UniqueID identity) v
        ds := ds1
        calls := o.calls ++ [Call.DeserializeVerifier identity] }) := by
  simp [service.GetVerifier, hd, hk, hr]

/-- C6: with a deserializer configured and no signer bound to the key of `identity`, if
`DeserializeSigner identity` succeeds with `s` then `GetSigner identity` returns `s` and no
error, makes exactly one call to the deserializer (`DeserializeSigner identity`) and binds `s`
to the key; after any further sequence of calls, `GetSigner identity` returns the same `s`
without changing the state (so without a call to the deserializer), and the number of
`DeserializeSigner identity` calls is one more than before the first lookup.  The same holds
for `GetVerifier` and `DeserializeVerifier`. -/
theorem lazy_resolution_cached (env : Env S) (o : service S V D K) (identity : view.Identity)
    (d : Deserializer S V D) (hd : o.deserializer = some d) :
    (∀ s ds1, o.signers (env.UniqueID identity) = none →
      d.DeserializeSigner o.ds identity = (Except.ok s, ds1) →
      (o.GetSigner env identity).1 = (s, none) ∧
      (o.GetSigner env identity).2.calls = o.calls ++ [Call.DeserializeSigner identity] ∧
      (o.GetSigner env identity).2.signers (env.UniqueID identity) = some s ∧
      ∀ ops : List (Op S V),
        (run env (o.GetSigner env identity).2 ops).GetSigner env identity =
          ((s, none), run env (o.GetSigner env identity).2 ops) ∧
        signerCalls (run env (o.GetSigner env identity).2 ops).calls identity =
          signerCalls o.calls identity + 1) ∧
    (∀ v ds1, o.verifiers (env.UniqueID identity) = none →
      d.DeserializeVerifier o.ds identity = (Except.ok v, ds1) →
      (o.GetVerifier env identity).1 = (v, none) ∧
      (o.GetVerifier env identity).2.calls = o.calls ++ [Call.DeserializeVerifier identity] ∧
      (o.GetVerifier env identity).2.verifiers (env.UniqueID identity) = some v ∧
      ∀ ops : List (Op S V),
        (run env (o.GetVerifier env identity).2 ops).GetVerifier env identity =
          ((v, none), run env (o.GetVerifier env identity).2 ops) ∧
        verifierCalls (run env (o.GetVerifier env identity).2 ops).calls identity =
          verifierCalls o.calls identity + 1) := by
  constructor
  · intro s ds1 hk hr
    have hb : (o.GetSigner env identity).2.signers (env.UniqueID identity) = some s := by
      rw [GetSigner_resolved env o identity d s ds1 hd hk hr]
      simp [mapSet]
    refine ⟨?_, ?_, hb, fun ops => ⟨?_, ?_⟩⟩
    · rw [GetSigner_resolved env o identity d s ds1 hd hk hr]
    · rw [GetSigner_resolved env o identity d s ds1 hd hk hr]
    · exact GetSigner_hit env _ identity s (run_signers_of_bound env ops _ _ s hb)
    · rw [run_signerCalls env ops _ identity s hb,
        GetSigner_resolved env o identity d s ds1 hd hk hr]
      simp [signerCalls]
  · intro v ds1 hk hr
    have hb : (o.GetVerifier env identity).2.verifiers (env.UniqueID identity) = some v := by
      rw [GetVerifier_resolved env o identity d v ds1 hd hk hr]
      simp [mapSet]
    refine ⟨?_, ?_, hb, fun ops => ⟨?_, ?_⟩⟩
    · rw [GetVerifier_resolved env o identity d v ds1 hd hk hr]
    · rw [GetVerifier_resolved env o identity d v ds1 hd hk hr]
    · exact GetVerifier_hit env _ identity v (run_verifiers_of_bound env ops _ _ v hb)
    · rw [run_verifierCalls env ops _ identity v hb,
        GetVerifier_resolved env o identity d v ds1 hd hk hr]
      simp [verifierCalls]

/-- C6 on a new registry with the counting deserializer: the first `GetSigner alice` resolves
signer `42` with one deserializer call, and a second `GetSigner alice`, also after other
calls, returns `42` with the count still one. -/
theorem lazy_resolution_cached_witness :
    countingService.deserializer = some countingDeserializer ∧
    countingService.signers (demoEnv.UniqueID alice) = none ∧
    countingDeserializer.DeserializeSigner countingService.ds alice = (Except.ok (some 42), 1) ∧
    (countingService.GetSigner demoEnv alice).1 = (some 42, none) ∧
    (countingService.GetSigner demoEnv alice).2.calls =
      countingService.calls ++ [Call.DeserializeSigner alice] ∧
    ((run demoEnv (countingService.GetSigner demoEnv alice).2
        [Op.GetVerifier alice, Op.Info alice]).GetSigner demoEnv alice).1 = (some 42, none) ∧
    signerCalls (run demoEnv (countingService.GetSigner demoEnv alice).2
        [Op.GetSigner alice]).calls alice = signerCalls countingService.calls alice + 1 := by
  have h := (lazy_resolution_cached demoEnv countingService alice countingDeserializer rfl).1
    (some 42) 1 rfl rfl
  refine ⟨rfl, rfl, rfl, h.1, h.2.1, ?_, (h.2.2.2 _).2⟩
  rw [(h.2.2.2 _).1]

/-- C7: with no deserializer configured, `GetSigner identity` returns an error exactly when no
signer is bound to the key of `identity`, and `GetVerifier identity` exactly when no verifier
is bound; a failing call returns nil with the error and the state it was given. -/
theorem lookup_without_deserializer (env : Env S) (o : service S V D K)
    (identity : view.Identity) (hd : o.deserializer = none) :
    ((o.GetSigner env identity).1.2 ≠ none ↔ o.signers (env.UniqueID identity) = none) ∧
    ((o.GetSigner env identity).1.2 ≠ none →
      (o.GetSigner env identity).1.1 = none ∧ (o.GetSigner env identity).2 = o) ∧
    ((o.GetVerifier env identity).1.2 ≠ none ↔ o.verifiers (env.UniqueID identity) = none) ∧
    ((o.GetVerifier env identity).1.2 ≠ none →
      (o.GetVerifier env identity).1.1 = none ∧ (o.GetVerifier env identity).2 = o) := by
  refine ⟨?_, ?_, ?_, ?_⟩
  · cases hk : o.signers (env.UniqueID identity) <;> simp [service.GetSigner, hd, hk]
  · cases hk : o.signers (env.UniqueID identity) <;> simp [service.GetSigner, hd, hk]
  · cases hk : o.verifiers (env.UniqueID identity) <;> simp [service.GetVerifier, hd, hk]
  · cases hk : o.verifiers (env.UniqueID identity) <;> simp [service.GetVerifier, hd, hk]

/-- C7 on a new registry without deserializer: `GetSigner alice` and `GetVerifier alice`
fail, because nothing is bound for `alice`. -/
theorem lookup_without_deserializer_witness :
    emptyService.deserializer = none ∧
    (emptyService.GetSigner demoEnv alice).1.2 ≠ none ∧
    (emptyService.GetSigner demoEnv alice).1.1 = none ∧
    (emptyService.GetSigner demoEnv alice).2 = emptyService ∧
    (emptyService.GetVerifier demoEnv alice).1.2 ≠ none :=
  ⟨rfl,
    (lookup_without_deserializer demoEnv emptyService alice rfl).1.mpr rfl,
    ((lookup_without_deserializer demoEnv emptyService alice rfl).2.1
      ((lookup_without_deserializer demoEnv emptyService alice rfl).1.mpr rfl)).1,
    ((lookup_without_deserializer demoEnv emptyService alice rfl).2.1
      ((lookup_without_deserializer demoEnv emptyService alice rfl).1.mpr rfl)).2,
    (lookup_without_deserializer demoEnv emptyService alice rfl).2.2.1.mpr rfl⟩

/-- C8: with a deserializer configured and no signer bound to the key of `identity`, if
`DeserializeSigner identity` fails with `e` then `GetSigner identity` returns nil and the
error `Wrapf e "failed deserializing identity for signer [identity]"`, whose wrapped error is
`e` and whose cause is the cause of `e`; the three maps are as before, and a following
`GetSigner identity` calls `DeserializeSigner identity` again.  The same for `GetVerifier`,
with the message `"failed deserializing identity for verifier identity"`. -/
theorem resolution_failure (env : Env S) (o : service S V D K) (identity : view.Identity)
    (d : Deserializer S V D) (hd : o.deserializer = some d) :
    (∀ e ds1, o.signers (env.UniqueID identity) = none →
      d.DeserializeSigner o.ds identity = (Except.error e, ds1) →
      (o.GetSigner env identity).1 = (none, some (Error.Wrapf e
        ("failed deserializing identity for signer [" ++ env.IdentityString identity ++ "]"))) ∧
      (∀ err, (o.GetSigner env identity).1.2 = some err →
        err.Unwrap = some e ∧ err.Cause = e.Cause) ∧
      (o.GetSigner env identity).2.signers = o.signers ∧
      (o.GetSigner env identity).2.verifiers = o.verifiers ∧
      (o.GetSigner env identity).2.types = o.types ∧
      (o.GetSigner env identity).2.calls = o.calls ++ [Call.DeserializeSigner identity] ∧
      ((o.GetSigner env identity).2.GetSigner env identity).2.calls =
        o.calls ++ [Call.DeserializeSigner identity, Call.DeserializeSigner identity]) ∧
    (∀ e ds1, o.verifiers (env.UniqueID identity) = none →
      d.DeserializeVerifier o.ds identity = (Except.error e, ds1) →
      (o.GetVerifier env identity).1 = (none, some (Error.Wrapf e
        ("failed deserializing identity for verifier " ++ env.IdentityString identity))) ∧
      (∀ err, (o.GetVerifier env identity).1.2 = some err →
        err.Unwrap = some e ∧ err.Cause = e.Cause) ∧
      (o.GetVerifier env identity).2.signers = o.signers ∧
      (o.GetVerifier env identity).2.verifiers = o.verifiers ∧
      (o.GetVerifier env identity).2.types = o.types ∧
      (o.GetVerifier env identity).2.calls = o.calls ++ [Call.DeserializeVerifier identity] ∧
      ((o.GetVerifier env identity).2.GetVerifier env identity).2.calls =
        o.calls ++ [Call.DeserializeVerifier identity, Call.DeserializeVerifier identity]) := by
  constructor
  · intro e ds1 hk hr
    have h1 : o.GetSigner env identity = ((none, some (Error.Wrapf e
        ("failed deserializing identity for signer [" ++ env.IdentityString identity ++ "]"))),
        { o with ds := ds1, calls := o.calls ++ [Call.DeserializeSigner identity] }) := by
      simp [service.GetSigner, hd, hk, hr]
    rw [h1]
    refine ⟨rfl, ?_, rfl, rfl, rfl, rfl, ?_⟩
    · intro err herr
      simp only [Option.some.injEq] at herr
      subst herr
      exact ⟨rfl, rfl⟩
    · unfold service.GetSigner
      simp only [hk, hd]
      split <;> simp
  · intro e ds1 hk hr
    have h1 : o.GetVerifier env identity = ((none, some (Error.Wrapf e
        ("failed deserializing identity for verifier " ++ env.IdentityString identity))),
        { o with ds := ds1, calls := o.calls ++ [Call.DeserializeVerifier identity] }) := by
      simp [service.GetVerifier, hd, hk, hr]
    rw [h1]
    refine ⟨rfl, ?_, rfl, rfl, rfl, rfl, ?_⟩
    · intro err herr
      simp only [Option.some.injEq] at herr
      subst herr
      exact ⟨rfl, rfl⟩
    · unfold service.GetVerifier
      simp only [hk, hd]
      split <;> simp

/-- C8 on a new registry with the failing deserializer: `GetSigner alice` returns the
deserializer's error wrapped, binds nothing, and a second `GetSigner alice` asks the
deserializer again. -/
theorem resolution_failure_witness :
    failingService.deserializer = some failingDeserializer ∧
    failingService.signers (demoEnv.UniqueID alice) = none ∧
    failingDeserializer.DeserializeSigner failingService.ds alice =
      (Except.error (Error.New "no such signer"), 1) ∧
    (failingService.GetSigner demoEnv alice).1 = (none, some (Error.Wrapf
      (Error.New "no such signer")
      ("failed deserializing identity for signer [" ++ demoEnv.IdentityString alice ++ "]"))) ∧
    (failingService.GetSigner demoEnv alice).2.signers = failingService.signers ∧
    ((failingService.GetSigner demoEnv alice).2.GetSigner demoEnv alice).2.calls =
      failingService.calls ++ [Call.DeserializeSigner alice, Call.DeserializeSigner alice] :=
  ⟨rfl, rfl, rfl,
    ((resolution_failure demoEnv failingService alice failingDeserializer rfl).1
      (Error.New "no such signer") 1 rfl rfl).1,
    ((resolution_failure demoEnv failingService alice failingDeserializer rfl).1
      (Error.New "no such signer") 1 rfl rfl).2.2.1,
    ((resolution_failure demoEnv failingService alice failingDeserializer rfl).1
      (Error.New "no such signer") 1 rfl rfl).2.2.2.2.2.2⟩

/-! ## Audit info -/

/-- The map store behaves as a map and does not fail. -/
theorem mapStore_mapLike : mapStore.MapLike where
  put_ok := fun _ _ _ => rfl
  exists_put := fun kv k v => by simp [mapStore, mapSet]
  get_put := fun kv k v => by simp [mapStore, mapSet]

/-- Reading the audit info right after writing it, over a store that behaves as a map. -/
theorem GetAuditInfo_after_register (env : Env S) (o : service S V D K) (h : o.sp.MapLike)
    (identity : view.Identity) (b : Bytes) :
    (o.RegisterAuditInfo env identity b).1 = none ∧
    (o.RegisterAuditInfo env identity b).2.sp = o.sp ∧
    ((o.RegisterAuditInfo env identity b).2.GetAuditInfo env identity).1 = (b, none) := by
  have hput := h.put_ok o.kv (service.auditKey env identity) b
  have hex := h.exists_put o.kv (service.auditKey env identity) b
  have hget := h.get_put o.kv (service.auditKey env identity) b
  refine ⟨?_, ?_, ?_⟩
  · simp [service.RegisterAuditInfo, hput]
  · simp [service.RegisterAuditInfo, hput]
  · simp [service.RegisterAuditInfo, service.GetAuditInfo, hput, hex, hget]

/-- C9: over a store that behaves as a map and does not fail, `RegisterAuditInfo identity b`
returns no error and a following `GetAuditInfo identity` returns exactly `b` and no error;
after `RegisterAuditInfo identity b` and then `RegisterAuditInfo identity b2`, both without
error, `GetAuditInfo identity` returns exactly `b2`, whatever the store held before. -/
theorem auditInfo_round_trip (env : Env S) (o : service S V D K) (h : o.sp.MapLike)
    (identity : view.Identity) (b b2 : Bytes) :
    (o.RegisterAuditInfo env identity b).1 = none ∧
    ((o.RegisterAuditInfo env identity b).2.GetAuditInfo env identity).1 = (b, none) ∧
    ((o.RegisterAuditInfo env identity b).2.RegisterAuditInfo env identity b2).1 = none ∧
    (((o.RegisterAuditInfo env identity b).2.RegisterAuditInfo env identity
      b2).2.GetAuditInfo env identity).1 = (b2, none) := by
  have h1 := GetAuditInfo_after_register env o h identity b
  have h2 := GetAuditInfo_after_register env (o.RegisterAuditInfo env identity b).2
    (h1.2.1 ▸ h) identity b2
  exact ⟨h1.1, h1.2.2, h2.1, h2.2.2⟩

/-- C9 at the scenario of the specification: the audit info "k=v" written for `alice` on the
map store is read back, and a second write of "k2" replaces it. -/
theorem auditInfo_round_trip_witness :
    emptyService.sp.MapLike ∧
    ((emptyService.RegisterAuditInfo demoEnv alice (some [107, 61, 118])).2.GetAuditInfo
      demoEnv alice).1 = (some [107, 61, 118], none) ∧
    (((emptyService.RegisterAuditInfo demoEnv alice (some [107, 61, 118])).2.RegisterAuditInfo
      demoEnv alice (some [107, 50])).2.GetAuditInfo demoEnv alice).1 = (some [107, 50], none) :=
  ⟨mapStore_mapLike,
    (auditInfo_round_trip demoEnv emptyService mapStore_mapLike alice (some [107, 61, 118])
      (some [107, 50])).2.1,
    (auditInfo_round_trip demoEnv emptyService mapStore_mapLike alice (some [107, 61, 118])
      (some [107, 50])).2.2.2⟩

/-- C10: when the store holds nothing under the audit-info key of `identity` (its `Exists`
answers no), `GetAuditInfo identity` returns nil bytes and a nil error, and the only call it
makes to the store is that `Exists`: `Get` is not called. -/
theorem GetAuditInfo_absent (env : Env S) (o : service S V D K) (identity : view.Identity)
    (h : o.sp.Exists o.kv (service.auditKey env identity) = false) :
    (o.GetAuditInfo env identity).1 = (none, none) ∧
    (o.GetAuditInfo env identity).2.calls =
      o.calls ++ [Call.Exists (service.auditKey env identity)] ∧
    (∀ k, (o.GetAuditInfo env identity).2.calls.count (Call.Get k) =
      o.calls.count (Call.Get k)) ∧
    (o.GetAuditInfo env identity).2.kv = o.kv := by
  simp [service.GetAuditInfo, h, List.count_cons]

/-- C10 on a new registry over the empty map store: `GetAuditInfo alice` returns `(nil, nil)`
after asking the store only whether the key exists. -/
theorem GetAuditInfo_absent_witness :
    emptyService.sp.Exists emptyService.kv (service.auditKey demoEnv alice) = false ∧
    (emptyService.GetAuditInfo demoEnv alice).1 = (none, none) ∧
    (emptyService.GetAuditInfo demoEnv alice).2.calls =
      emptyService.calls ++ [Call.Exists (service.auditKey demoEnv alice)] :=
  ⟨rfl, (GetAuditInfo_absent demoEnv emptyService alice rfl).1,
    (GetAuditInfo_absent demoEnv emptyService alice rfl).2.1⟩

/-! ## Identity type and signing identity -/

/-- C11: `IdentityType identity` returns the type bound to the key of `identity` in the type
map when one is bound and `Unknown` otherwise; on a newly constructed registry it returns
`Unknown` for every identity; and the call leaves the registry as it is. -/
theorem identityType_lookup (env : Env S) (o : service S V D K) (identity : view.Identity) :
    (∀ t, o.types (env.UniqueID identity) = some t → o.IdentityType env identity = t) ∧
    (o.types (env.UniqueID identity) = none → o.IdentityType env identity = api.Unknown) ∧
    (∀ (sp : KVS K) (deserializer : Option (Deserializer S V D)) (kv : K) (ds : D),
      (NewSignService sp deserializer kv ds).IdentityType env identity = api.Unknown) ∧
    exec env o (Op.IdentityType identity) = o := by
  refine ⟨fun t h => ?_, fun h => ?_, fun sp deserializer kv ds => rfl, rfl⟩
  · simp [service.IdentityType, h]
  · simp [service.IdentityType, h]

/-- C11 on two registries: `alice` registered with `RegisterSigner` has type `MSPIdentity`,
and on a new registry her type is `Unknown`. -/
theorem identityType_lookup_witness :
    aliceService.types (demoEnv.UniqueID alice) = some api.MSPIdentity ∧
    aliceService.IdentityType demoEnv alice = api.MSPIdentity ∧
    emptyService.types (demoEnv.UniqueID alice) = none ∧
    emptyService.IdentityType demoEnv alice = api.Unknown := by
  have ht : aliceService.types (demoEnv.UniqueID alice) = some api.MSPIdentity := by
    simp [aliceService, countingService, NewSignService, service.RegisterSigner,
      service.RegisterSignerWithType, service.RegisterVerifierWithType, mapSet]
  exact ⟨ht, (identityType_lookup demoEnv aliceService alice).1 _ ht, rfl,
    (identityType_lookup demoEnv emptyService alice).2.1 rfl⟩

/-- What `GetSigningIdentity` returns, by what `GetSigner` returns. -/
theorem GetSigningIdentity_result (env : Env S) (o : service S V D K)
    (identity : view.Identity) :
    (∀ x e, (o.GetSigner env identity).1 = (x, some e) →
      (o.GetSigningIdentity env identity).1 = (none, some e)) ∧
    (∀ s, (o.GetSigner env identity).1 = (some s, none) → env.isSigningIdentity s = true →
      (o.GetSigningIdentity env identity).1 = (some (api.SigningIdentity.ofSigner s), none)) ∧
    (∀ s, (o.GetSigner env identity).1 = (some s, none) → env.isSigningIdentity s = false →
      (o.GetSigningIdentity env identity).1 =
        (some (api.SigningIdentity.ofSi { id := identity, signer := some s }), none)) := by
  unfold service.GetSigningIdentity
  generalize o.GetSigner env identity = r
  obtain ⟨⟨a, e⟩, o1⟩ := r
  refine ⟨fun x e1 h => ?_, fun s h hs => ?_, fun s h hs => ?_⟩
  · simp only [Prod.mk.injEq] at h
    obtain ⟨-, rfl⟩ := h
    rfl
  · simp only [Prod.mk.injEq] at h
    obtain ⟨rfl, rfl⟩ := h
    simp [hs]
  · simp only [Prod.mk.injEq] at h
    obtain ⟨rfl, rfl⟩ := h
    simp [hs]

/-- C12: when the signer `s2` that `GetSigner identity` resolves (from the cache or through
the deserializer) is not itself a signing identity, `GetSigningIdentity identity` returns, with
no error, the composite `si` of `identity` and `s2`; for every message `Sign` on the composite
yields what `Sign` on `s2` yields, and `Serialize` yields the raw bytes of `identity` and no
error.  When nothing was bound for `identity` and the deserializer resolves it to `s2`, two
calls of `GetSigningIdentity identity` in a row make exactly one `DeserializeSigner` call. -/
theorem getSigningIdentity_composite (env : Env S) (o : service S V D K)
    (identity : view.Identity) (s2 : S) (hnot : env.isSigningIdentity s2 = false) :
    ((o.GetSigner env identity).1 = (some s2, none) →
      (o.GetSigningIdentity env identity).1 =
        (some (api.SigningIdentity.ofSi { id := identity, signer := some s2 }), none) ∧
      (∀ (R : Type) (sign : S → Bytes → R) (m : Bytes),
        si.Sign sign { id := identity, signer := some s2 } m = Outcome.ret (sign s2 m)) ∧
      si.Serialize ({ id := identity, signer := some s2 } : si S) = (identity, none)) ∧
    (∀ d ds1, o.deserializer = some d → o.signers (env.UniqueID identity) = none →
      d.DeserializeSigner o.ds identity = (Except.ok (some s2), ds1) →
      (o.GetSigningIdentity env identity).1 =
        (some (api.SigningIdentity.ofSi { id := identity, signer := some s2 }), none) ∧
      ((o.GetSigningIdentity env identity).2.GetSigningIdentity env identity).1 =
        (some (api.SigningIdentity.ofSi { id := identity, signer := some s2 }), none) ∧
      ((o.GetSigningIdentity env identity).2.GetSigningIdentity env identity).2.calls =
        o.calls ++ [Call.DeserializeSigner identity] ∧
      signerCalls ((o.GetSigningIdentity env identity).2.GetSigningIdentity
        env identity).2.calls identity = signerCalls o.calls identity + 1) := by
  constructor
  · intro h
    exact ⟨(GetSigningIdentity_result env o identity).2.2 s2 h hnot, fun R sign m => rfl, rfl⟩
  · intro d ds1 hd hk hr
    have h1 := GetSigner_resolved env o identity d (some s2) ds1 hd hk hr
    have hb : (o.GetSigner env identity).2.signers (env.UniqueID identity) = some (some s2) := by
      rw [h1]
      simp [mapSet]
    have h2 := GetSigner_hit env (o.GetSigner env identity).2 identity (some s2) hb
    have hc : ((o.GetSigningIdentity env identity).2.GetSigningIdentity env identity).2.calls =
        o.calls ++ [Call.DeserializeSigner identity] := by
      rw [GetSigningIdentity_state, GetSigningIdentity_state, h2, h1]
    refine ⟨?_, ?_, hc, ?_⟩
    · exact (GetSigningIdentity_result env o identity).2.2 s2 (by rw [h1]) hnot
    · rw [GetSigningIdentity_state]
      exact (GetSigningIdentity_result env _ identity).2.2 s2 (by rw [h2]) hnot
    · rw [hc]
      simp [signerCalls]

/-- C12 on a new registry with the counting deserializer, which resolves `alice` to signer
`42`: the composite wraps `alice` and `42`, and two calls make one deserializer call. -/
theorem getSigningIdentity_composite_witness :
    demoEnv.isSigningIdentity 42 = false ∧
    (countingService.GetSigner demoEnv alice).1 = (some 42, none) ∧
    (countingService.GetSigningIdentity demoEnv alice).1 =
      (some (api.SigningIdentity.ofSi { id := alice, signer := some 42 }), none) ∧
    signerCalls ((countingService.GetSigningIdentity demoEnv alice).2.GetSigningIdentity
      demoEnv alice).2.calls alice = signerCalls countingService.calls alice + 1 :=
  ⟨rfl, rfl,
    ((getSigningIdentity_composite demoEnv countingService alice 42 rfl).1 rfl).1,
    ((getSigningIdentity_composite demoEnv countingService alice 42 rfl).2
      countingDeserializer 1 rfl rfl rfl).2.2.2⟩

/-- C13: if `GetSigner identity` fails with `e` then `GetSigningIdentity identity` returns no
signing identity and exactly `e`; if `GetSigner identity` yields a signer that is itself a
signing identity then `GetSigningIdentity identity` returns that signer, not a composite. -/
theorem getSigningIdentity_passthrough (env : Env S) (o : service S V D K)
    (identity : view.Identity) :
    (∀ e, (o.GetSigner env identity).1.2 = some e →
      (o.GetSigningIdentity env identity).1 = (none, some e)) ∧
    (∀ s, (o.GetSigner env identity).1 = (some s, none) → env.isSigningIdentity s = true →
      (o.GetSigningIdentity env identity).1 =
        (some (api.SigningIdentity.ofSigner s), none)) := by
  refine ⟨fun e h => ?_, (GetSigningIdentity_result env o identity).2.1⟩
  exact (GetSigningIdentity_result env o identity).1 (o.GetSigner env identity).1.1 e
    (by rw [← h])

/-- C13 on a new registry without deserializer: `GetSigningIdentity alice` returns the error
of `GetSigner alice`, and in an environment where every signer is a signing identity the
registered signer `1` of `alice` is returned as it is. -/
theorem getSigningIdentity_passthrough_witness :
    (emptyService.GetSigner demoEnv alice).1.2 =
      some (Error.New ("cannot find signer for [" ++ demoEnv.IdentityString alice ++
        "], no deserializer set")) ∧
    (emptyService.GetSigningIdentity demoEnv alice).1 =
      (none, some (Error.New ("cannot find signer for [" ++ demoEnv.IdentityString alice ++
        "], no deserializer set"))) ∧
    (aliceService.GetSigner { demoEnv with isSigningIdentity := fun _ => true } alice).1 =
      (some 1, none) ∧
    (aliceService.GetSigningIdentity { demoEnv with isSigningIdentity := fun _ => true }
      alice).1 = (some (api.SigningIdentity.ofSigner 1), none) := by
  have hs : (aliceService.GetSigner { demoEnv with isSigningIdentity := fun _ => true }
      alice).1 = (some 1, none) := by
    simp [aliceService, countingService, NewSignService, service.RegisterSigner,
      service.RegisterSignerWithType, service.RegisterVerifierWithType, service.GetSigner,
      mapSet, demoEnv]
  exact ⟨rfl, (getSigningIdentity_passthrough demoEnv emptyService alice).1 _ rfl, hs,
    (getSigningIdentity_passthrough { demoEnv with isSigningIdentity := fun _ => true }
      aliceService alice).2 1 hs rfl⟩

/-! ## Info -/

/-- C14, on the code: on a registry constructed without deserializer, over a store that
holds no audit info for `alice`, `Info alice` does not return a string: `GetAuditInfo` succeeds
with nil bytes and the call of `Info` on the nil deserializer panics. -/
theorem Info_without_deserializer_panics :
    emptyService.deserializer = none ∧
    (emptyService.GetAuditInfo demoEnv alice).1 = (none, none) ∧
    (emptyService.Info demoEnv alice).1 =
      Outcome.panic "invalid memory address or nil pointer dereference" ∧
    ∀ str : String, (emptyService.Info demoEnv alice).1 ≠ Outcome.ret str := by
  refine ⟨rfl, rfl, rfl, fun str h => ?_⟩
  have h2 : (emptyService.Info demoEnv alice).1 =
      Outcome.panic "invalid memory address or nil pointer dereference" := rfl
  rw [h2] at h
  exact Outcome.noConfusion h

/-- C15: with a deserializer `d` configured: if `GetAuditInfo id` succeeds with bytes `a` and
`d.Info id a` succeeds with `str`, then `Info id` is `str`; if `d.Info id a` fails, `Info id` is
the fallback text; if `GetAuditInfo id` fails, `Info id` is the fallback text and the state is
the one `GetAuditInfo` left, so the deserializer was not called.  The fallback text is
"unable to identify identity : [u][r]" with `u` the `UniqueID` of `id` and `r` its raw bytes
as a string. -/
theorem Info_result (env : Env S) (o : service S V D K) (id : view.Identity)
    (d : Deserializer S V D) (hd : o.deserializer = some d) :
    (∀ a str ds1, (o.GetAuditInfo env id).1 = (a, none) →
      d.Info o.ds id a = (Except.ok str, ds1) → (o.Info env id).1 = Outcome.ret str) ∧
    (∀ a e ds1, (o.GetAuditInfo env id).1 = (a, none) →
      d.Info o.ds id a = (Except.error e, ds1) →
      (o.Info env id).1 = Outcome.ret (service.unableToIdentify env id)) ∧
    (∀ a e, (o.GetAuditInfo env id).1 = (a, some e) →
      (o.Info env id).1 = Outcome.ret (service.unableToIdentify env id) ∧
      (o.Info env id).2 = (o.GetAuditInfo env id).2) ∧
    service.unableToIdentify env id =
      "unable to identify identity : [" ++ env.UniqueID id ++ "][" ++ rawString id ++ "]" := by
  have hf := GetAuditInfo_frame env o id
  unfold service.Info
  generalize o.GetAuditInfo env id = r at hf
  obtain ⟨⟨a0, e0⟩, o1⟩ := r
  obtain ⟨-, -, -, hdes, hds, -, -⟩ := hf
  simp only at hdes hds
  refine ⟨fun a str ds1 h hi => ?_, fun a e ds1 h hi => ?_, fun a e h => ?_, rfl⟩
  · simp only [Prod.mk.injEq] at h
    obtain ⟨rfl, rfl⟩ := h
    simp [hdes, hds, hd, hi]
  · simp only [Prod.mk.injEq] at h
    obtain ⟨rfl, rfl⟩ := h
    simp [hdes, hds, hd, hi]
  · simp only [Prod.mk.injEq] at h
    obtain ⟨rfl, rfl⟩ := h
    exact ⟨rfl, rfl⟩

/-- C15 on two registries with the counting deserializer: over the empty map store `Info
alice` is the deserializer's text, over the broken store it is the fallback text. -/
theorem Info_result_witness :
    countingService.deserializer = some countingDeserializer ∧
    (countingService.GetAuditInfo demoEnv alice).1 = (none, none) ∧
    countingDeserializer.Info countingService.ds alice none = (Except.ok "an identity", 1) ∧
    (countingService.Info demoEnv alice).1 = Outcome.ret "an identity" ∧
    (brokenService.GetAuditInfo demoEnv alice).1 = (none, some (Error.New "read failed")) ∧
    (brokenService.Info demoEnv alice).1 =
      Outcome.ret (service.unableToIdentify demoEnv alice) :=
  ⟨rfl, rfl, rfl,
    (Info_result demoEnv countingService alice countingDeserializer rfl).1 none
      "an identity" 1 rfl rfl,
    rfl,
    ((Info_result demoEnv brokenService alice countingDeserializer rfl).2.2.1 none
      (Error.New "read failed") rfl).1⟩

/-- C16: `RegisterAuditInfo` returns exactly what the store's `Put` returns, so the error `e`
of a failing `Put` as it is, and no error exactly when `Put` returns none; when the key exists
and the store's `Get` fails with `e`, `GetAuditInfo` returns nil bytes and exactly `e`. -/
theorem store_failure_verbatim (env : Env S) (o : service S V D K) (identity : view.Identity)
    (info : Bytes) :
    (∀ e, (o.sp.Put o.kv (service.auditKey env identity) info).1 = some e →
      (o.RegisterAuditInfo env identity info).1 = some e) ∧
    ((o.RegisterAuditInfo env identity info).1 = none ↔
      (o.sp.Put o.kv (service.auditKey env identity) info).1 = none) ∧
    (∀ e, o.sp.Exists o.kv (service.auditKey env identity) = true →
      o.sp.Get o.kv (service.auditKey env identity) = Except.error e →
      (o.GetAuditInfo env identity).1 = (none, some e)) := by
  have hput : (o.RegisterAuditInfo env identity info).1 =
      (o.sp.Put o.kv (service.auditKey env identity) info).1 := by
    unfold service.RegisterAuditInfo
    dsimp only
    split <;> simp_all
  refine ⟨fun e h => ?_, ?_, fun e hex hget => ?_⟩
  · rw [hput, h]
  · rw [hput]
  · simp [service.GetAuditInfo, hex, hget]

/-- C16 over the broken store: `RegisterAuditInfo` returns the error of `Put` and
`GetAuditInfo` the error of `Get`. -/
theorem store_failure_verbatim_witness :
    (brokenService.sp.Put brokenService.kv (service.auditKey demoEnv alice) (some [1])).1 =
      some (Error.New "write failed") ∧
    (brokenService.RegisterAuditInfo demoEnv alice (some [1])).1 =
      some (Error.New "write failed") ∧
    brokenService.sp.Exists brokenService.kv (service.auditKey demoEnv alice) = true ∧
    brokenService.sp.Get brokenService.kv (service.auditKey demoEnv alice) =
      Except.error (Error.New "read failed") ∧
    (brokenService.GetAuditInfo demoEnv alice).1 = (none, some (Error.New "read failed")) :=
  ⟨rfl, (store_failure_verbatim demoEnv brokenService alice (some [1])).1 _ rfl, rfl, rfl,
    (store_failure_verbatim demoEnv brokenService alice (some [1])).2.2 _ rfl rfl⟩

/-! ## Concurrent registrations -/

/-- A call of `RegisterSignerWithType` that runs alone through its guarded sections reaches
the state and the error of the method, within four steps. -/
theorem steps_alone_RegisterSignerWithType (env : Env S) (o : service S V D K)
    (typ : api.IdentityType) (identity : view.Identity) (signer : Option S)
    (verifier : Option V) :
    ((startRegisterSignerWithType typ identity signer verifier).steps env o 4).1 =
      (o.RegisterSignerWithType env typ identity signer verifier).2 ∧
    ((startRegisterSignerWithType typ identity signer verifier).steps env o 4).2.point =
      Point.returned (o.RegisterSignerWithType env typ identity signer verifier).1 := by
  cases signer with
  | none =>
    simp [startRegisterSignerWithType, Registration.steps, Registration.step,
      service.RegisterSignerWithType]
  | some x =>
    cases verifier with
    | none =>
      simp [startRegisterSignerWithType, Registration.steps, Registration.step,
        service.RegisterSignerWithType]
    | some y =>
      cases hk : o.signers (env.UniqueID identity) with
      | some z =>
        simp [startRegisterSignerWithType, Registration.steps, Registration.step,
          service.RegisterSignerWithType, hk]
      | none =>
        cases hv : o.verifiers (env.UniqueID identity) with
        | some z =>
          simp [startRegisterSignerWithType, Registration.steps, Registration.step,
            service.RegisterSignerWithType, service.RegisterVerifierWithType, verifierEntry,
            hk, hv]
        | none =>
          simp [startRegisterSignerWithType, Registration.steps, Registration.step,
            service.RegisterSignerWithType, service.RegisterVerifierWithType, verifierEntry,
            hk, hv]

/-- A call of `RegisterVerifierWithType` that runs alone through its guarded sections
reaches the state and the error of the method, within two steps. -/
theorem steps_alone_RegisterVerifierWithType (env : Env S) (o : service S V D K)
    (typ : api.IdentityType) (identity : view.Identity) (verifier : Option V) :
    ((startRegisterVerifierWithType typ identity verifier :
        Registration S V).steps env o 2).1 =
      (o.RegisterVerifierWithType env typ identity verifier).2 ∧
    ((startRegisterVerifierWithType typ identity verifier :
        Registration S V).steps env o 2).2.point =
      Point.returned (o.RegisterVerifierWithType env typ identity verifier).1 := by
  cases verifier with
  | none =>
    simp [startRegisterVerifierWithType, Registration.steps, Registration.step,
      service.RegisterVerifierWithType, verifierEntry]
  | some y =>
    cases hv : o.verifiers (env.UniqueID identity) with
    | some z =>
      simp [startRegisterVerifierWithType, Registration.steps, Registration.step,
        service.RegisterVerifierWithType, verifierEntry, hv]
    | none =>
      simp [startRegisterVerifierWithType, Registration.steps, Registration.step,
        service.RegisterVerifierWithType, verifierEntry, hv]

/-- C17, on the code: two concurrent `RegisterSignerWithType` calls for `alice` on a new
registry, the first with signer `1` and verifier `2`, the second with signer `3` and verifier
`4`.  Under the schedule where both finish their lookup before either stores, the first call
binds signer `1`, the store of the second call then replaces it with `3`, and both calls return
no error, leaving signer `3` bound next to verifier `2`.  Two concurrent
`RegisterVerifierWithType` calls with verifiers `2` and `4` replace `2` with `4` in the same
way. -/
theorem register_race_replaces_binding :
    (interleave demoEnv emptyService
      (startRegisterSignerWithType api.MSPIdentity alice (some 1) (some 2))
      (startRegisterSignerWithType api.MSPIdentity alice (some 3) (some 4))
      [true, false, true]).1.signers (demoEnv.UniqueID alice) = some (some 1) ∧
    (interleave demoEnv emptyService
      (startRegisterSignerWithType api.MSPIdentity alice (some 1) (some 2))
      (startRegisterSignerWithType api.MSPIdentity alice (some 3) (some 4))
      [true, false, true, false]).1.signers (demoEnv.UniqueID alice) = some (some 3) ∧
    (interleave demoEnv emptyService
      (startRegisterSignerWithType api.MSPIdentity alice (some 1) (some 2))
      (startRegisterSignerWithType api.MSPIdentity alice (some 3) (some 4))
      racingSchedule).1.signers (demoEnv.UniqueID alice) = some (some 3) ∧
    (interleave demoEnv emptyService
      (startRegisterSignerWithType api.MSPIdentity alice (some 1) (some 2))
      (startRegisterSignerWithType api.MSPIdentity alice (some 3) (some 4))
      racingSchedule).1.verifiers (demoEnv.UniqueID alice) = some (some 2) ∧
    (interleave demoEnv emptyService
      (startRegisterSignerWithType api.MSPIdentity alice (some 1) (some 2))
      (startRegisterSignerWithType api.MSPIdentity alice (some 3) (some 4))
      racingSchedule).2.1.point = Point.returned none ∧
    (interleave demoEnv emptyService
      (startRegisterSignerWithType api.MSPIdentity alice (some 1) (some 2))
      (startRegisterSignerWithType api.MSPIdentity alice (some 3) (some 4))
      racingSchedule).2.2.point = Point.returned none ∧
    (interleave demoEnv emptyService
      (startRegisterVerifierWithType api.MSPIdentity alice (some 2))
      (startRegisterVerifierWithType api.MSPIdentity alice (some 4))
      [true, false, true]).1.verifiers (demoEnv.UniqueID alice) = some (some 2) ∧
    (interleave demoEnv emptyService
      (startRegisterVerifierWithType api.MSPIdentity alice (some 2))
      (startRegisterVerifierWithType api.MSPIdentity alice (some 4))
      [true, false, true, false]).1.verifiers (demoEnv.UniqueID alice) = some (some 4) := by
  simp [interleave, racingSchedule, Registration.step, startRegisterSignerWithType,
    startRegisterVerifierWithType, verifierEntry, emptyService, NewSignService, mapSet]

/-- C18: on every composite `si`, every message and every signature, `Verify` panics with
"implement me"; it never returns, so it never returns a nil error. -/
theorem si_Verify_never_succeeds (s : si S) (message signature : Bytes) :
    si.Verify s message signature = Outcome.panic "implement me" ∧
    si.Verify s message signature ≠ Outcome.ret none ∧
    ∀ err : Option Error, si.Verify s message signature ≠ Outcome.ret err := by
  refine ⟨rfl, fun h => ?_, fun err h => ?_⟩
  · exact Outcome.noConfusion h
  · exact Outcome.noConfusion h

/-! ## Frame of the map operations -/

/-- The method `RegisterVerifierWithType` writes only at the key of its identity, and not to
the store. -/
theorem RegisterVerifierWithType_other_key (env : Env S) (o : service S V D K)
    (typ : api.IdentityType) (identity : view.Identity) (verifier : Option V) (k : String)
    (hk : k ≠ env.UniqueID identity) :
    (o.RegisterVerifierWithType env typ identity verifier).2.signers k = o.signers k ∧
    (o.RegisterVerifierWithType env typ identity verifier).2.verifiers k = o.verifiers k ∧
    (o.RegisterVerifierWithType env typ identity verifier).2.types k = o.types k ∧
    (o.RegisterVerifierWithType env typ identity verifier).2.kv = o.kv := by
  unfold service.RegisterVerifierWithType
  split
  · exact ⟨rfl, rfl, rfl, rfl⟩
  · split
    · exact ⟨rfl, rfl, rfl, rfl⟩
    · simp [mapSet, hk]

/-- The method `RegisterSignerWithType` writes only at the key of its identity, and not to
the store. -/
theorem RegisterSignerWithType_other_key (env : Env S) (o : service S V D K)
    (typ : api.IdentityType) (identity : view.Identity) (signer : Option S)
    (verifier : Option V) (k : String) (hk : k ≠ env.UniqueID identity) :
    (o.RegisterSignerWithType env typ identity signer verifier).2.signers k = o.signers k ∧
    (o.RegisterSignerWithType env typ identity signer verifier).2.verifiers k =
      o.verifiers k ∧
    (o.RegisterSignerWithType env typ identity signer verifier).2.types k = o.types k ∧
    (o.RegisterSignerWithType env typ identity signer verifier).2.kv = o.kv := by
  cases signer with
  | none => exact ⟨rfl, rfl, rfl, rfl⟩
  | some x =>
    cases verifier with
    | none => exact ⟨rfl, rfl, rfl, rfl⟩
    | some y =>
      cases hs : o.signers (env.UniqueID identity) with
      | some z =>
        simp [service.RegisterSignerWithType, hs]
      | none =>
        have h := RegisterVerifierWithType_other_key env
          { o with
            signers := mapSet o.signers (env.UniqueID identity) (some x)
            types := mapSet o.types (env.UniqueID identity) typ }
          typ identity (some y) k hk
        simp only [mapSet, hk, if_false] at h
        simp only [service.RegisterSignerWithType, hs]
        exact h

/-- The method `GetSigner` writes only the signer at the key of its identity, never to the
store, and makes no `Put` call. -/
theorem GetSigner_other_key (env : Env S) (o : service S V D K) (identity : view.Identity) :
    (∀ k, k ≠ env.UniqueID identity → (o.GetSigner env identity).2.signers k = o.signers k) ∧
    (o.GetSigner env identity).2.kv = o.kv ∧
    (∀ key b, (o.GetSigner env identity).2.calls.count (Call.Put key b) =
      o.calls.count (Call.Put key b)) := by
  unfold service.GetSigner
  split
  · exact ⟨fun _ _ => rfl, rfl, fun _ _ => rfl⟩
  · split
    · exact ⟨fun _ _ => rfl, rfl, fun _ _ => rfl⟩
    · split
      · exact ⟨fun _ _ => rfl, rfl, fun _ _ => by simp [List.count_cons]⟩
      · exact ⟨fun k hk => by simp [mapSet, hk], rfl, fun _ _ => by simp [List.count_cons]⟩

/-- The method `GetVerifier` writes only the verifier at the key of its identity, never to
the store, and makes no `Put` call. -/
theorem GetVerifier_other_key (env : Env S) (o : service S V D K)
    (identity : view.Identity) :
    (∀ k, k ≠ env.UniqueID identity →
      (o.GetVerifier env identity).2.verifiers k = o.verifiers k) ∧
    (o.GetVerifier env identity).2.kv = o.kv ∧
    (∀ key b, (o.GetVerifier env identity).2.calls.count (Call.Put key b) =
      o.calls.count (Call.Put key b)) := by
  unfold service.GetVerifier
  split
  · exact ⟨fun _ _ => rfl, rfl, fun _ _ => rfl⟩
  · split
    · exact ⟨fun _ _ => rfl, rfl, fun _ _ => rfl⟩
    · split
      · exact ⟨fun _ _ => rfl, rfl, fun _ _ => by simp [List.count_cons]⟩
      · exact ⟨fun k hk => by simp [mapSet, hk], rfl, fun _ _ => by simp [List.count_cons]⟩

/-- C19: for every state, every call `op` of a method that works on the maps (the four
registrations, `GetSigner`, `GetVerifier`, `GetSigningIdentity`, `IdentityType`) and every key
`k` other than the key of the identity of `op`: the signer, the verifier and the type bound
to `k` are the same after the call as before.  None of these calls writes to the store: its
content is unchanged and no `Put` call is made. -/
theorem cross_identity_isolation (env : Env S) (o : service S V D K) (op : Op S V)
    (hop : op.onMaps = true) :
    (∀ k, k ≠ env.UniqueID op.identity →
      (exec env o op).signers k = o.signers k ∧
      (exec env o op).verifiers k = o.verifiers k ∧
      (exec env o op).types k = o.types k) ∧
    (exec env o op).kv = o.kv ∧
    (∀ key b, (exec env o op).calls.count (Call.Put key b) =
      o.calls.count (Call.Put key b)) := by
  cases op with
  | RegisterSignerWithType typ identity signer verifier =>
    refine ⟨fun k hk => ?_, ?_, fun key b => ?_⟩
    · have h := RegisterSignerWithType_other_key env o typ identity signer verifier k hk
      exact ⟨h.1, h.2.1, h.2.2.1⟩
    · by_cases hk : "" = env.UniqueID identity
      · exact (RegisterSignerWithType_other_key env o typ identity signer verifier "x"
          (by rw [← hk]; decide)).2.2.2
      · exact (RegisterSignerWithType_other_key env o typ identity signer verifier "" hk).2.2.2
    · simp only [exec, (register_calls env o typ identity signer verifier).2]
  | RegisterVerifierWithType typ identity verifier =>
    refine ⟨fun k hk => ?_, ?_, fun key b => ?_⟩
    · have h := RegisterVerifierWithType_other_key env o typ identity verifier k hk
      exact ⟨h.1, h.2.1, h.2.2.1⟩
    · by_cases hk : "" = env.UniqueID identity
      · exact (RegisterVerifierWithType_other_key env o typ identity verifier "x"
          (by rw [← hk]; decide)).2.2.2
      · exact (RegisterVerifierWithType_other_key env o typ identity verifier "" hk).2.2.2
    · simp only [exec, (register_calls env o typ identity (none : Option S) verifier).1]
  | RegisterSigner identity signer verifier =>
    refine ⟨fun k hk => ?_, ?_, fun key b => ?_⟩
    · have h := RegisterSignerWithType_other_key env o api.MSPIdentity identity signer
        verifier k hk
      exact ⟨h.1, h.2.1, h.2.2.1⟩
    · by_cases hk : "" = env.UniqueID identity
      · exact (RegisterSignerWithType_other_key env o api.MSPIdentity identity signer
          verifier "x" (by rw [← hk]; decide)).2.2.2
      · exact (RegisterSignerWithType_other_key env o api.MSPIdentity identity signer
          verifier "" hk).2.2.2
    · simp only [exec, service.RegisterSigner,
        (register_calls env o api.MSPIdentity identity signer verifier).2]
  | RegisterVerifier identity verifier =>
    refine ⟨fun k hk => ?_, ?_, fun key b => ?_⟩
    · have h := RegisterVerifierWithType_other_key env o api.MSPIdentity identity verifier
        k hk
      exact ⟨h.1, h.2.1, h.2.2.1⟩
    · by_cases hk : "" = env.UniqueID identity
      · exact (RegisterVerifierWithType_other_key env o api.MSPIdentity identity verifier
          "x" (by rw [← hk]; decide)).2.2.2
      · exact (RegisterVerifierWithType_other_key env o api.MSPIdentity identity verifier
          "" hk).2.2.2
    · simp only [exec, service.RegisterVerifier,
        (register_calls env o api.MSPIdentity identity (none : Option S) verifier).1]
  | RegisterAuditInfo identity info => simp [Op.onMaps] at hop
  | GetAuditInfo identity => simp [Op.onMaps] at hop
  | Info id => simp [Op.onMaps] at hop
  | GetSigner identity =>
    have h := GetSigner_other_key env o identity
    have hf := GetSigner_frame env o identity
    refine ⟨fun k hk => ⟨h.1 k hk, ?_, ?_⟩, h.2.1, h.2.2⟩
    · simp only [exec, hf.2.1]
    · simp only [exec, hf.2.2]
  | GetVerifier identity =>
    have h := GetVerifier_other_key env o identity
    have hf := GetVerifier_frame env o identity
    refine ⟨fun k hk => ⟨?_, h.1 k hk, ?_⟩, h.2.1, h.2.2⟩
    · simp only [exec, hf.2.1]
    · simp only [exec, hf.2.2]
  | GetSigningIdentity identity =>
    have h := GetSigner_other_key env o identity
    have hf := GetSigner_frame env o identity
    simp only [exec, GetSigningIdentity_state]
    refine ⟨fun k hk => ⟨h.1 k hk, ?_, ?_⟩, h.2.1, h.2.2⟩
    · simp only [hf.2.1]
    · simp only [hf.2.2]
  | IdentityType identity => exact ⟨fun _ _ => ⟨rfl, rfl, rfl⟩, rfl, fun _ _ => rfl⟩

/-- C19 on the registry where `alice` has signer `1` and verifier `2`: registering `bob`, and
resolving `bob` lazily, leave the signer, the verifier and the type of `alice` as they are. -/
theorem cross_identity_isolation_witness :
    (Op.RegisterSignerWithType 7 bob (some 3) (some 4) : Op Nat Nat).onMaps = true ∧
    demoEnv.UniqueID alice ≠ demoEnv.UniqueID bob ∧
    (exec demoEnv aliceService (Op.RegisterSignerWithType 7 bob (some 3) (some 4))).signers
      (demoEnv.UniqueID alice) = aliceService.signers (demoEnv.UniqueID alice) ∧
    (exec demoEnv aliceService (Op.RegisterSignerWithType 7 bob (some 3) (some 4))).types
      (demoEnv.UniqueID alice) = aliceService.types (demoEnv.UniqueID alice) ∧
    (exec demoEnv aliceService (Op.GetVerifier bob)).verifiers (demoEnv.UniqueID alice) =
      aliceService.verifiers (demoEnv.UniqueID alice) ∧
    (exec demoEnv aliceService (Op.GetVerifier bob)).kv = aliceService.kv := by
  have hne : demoEnv.UniqueID alice ≠ demoEnv.UniqueID bob := by decide
  exact ⟨rfl, hne,
    ((cross_identity_isolation demoEnv aliceService
      (Op.RegisterSignerWithType 7 bob (some 3) (some 4)) rfl).1 _ hne).1,
    ((cross_identity_isolation demoEnv aliceService
      (Op.RegisterSignerWithType 7 bob (some 3) (some 4)) rfl).1 _ hne).2.2,
    ((cross_identity_isolation demoEnv aliceService (Op.GetVerifier bob) rfl).1 _ hne).2.1,
    (cross_identity_isolation demoEnv aliceService (Op.GetVerifier bob) rfl).2.1⟩

/-- C20: `GetSigner`, `GetVerifier` and `GetSigningIdentity` leave the type map as it is,
whatever their outcome; so when no type is bound to the key of `identity`, `IdentityType
identity` is `Unknown` after each of them.  After a lazy `GetSigner identity` that the
deserializer resolved, `RegisterSignerWithType typ identity s v` returns no error and the
state it was given: the verifier map is still the one from before the lookup, so `v` is not
bound, and with no type bound before, `IdentityType identity` is still `Unknown`. -/
theorem lazy_resolution_binds_no_type (env : Env S) (o : service S V D K)
    (identity : view.Identity) :
    (o.GetSigner env identity).2.types = o.types ∧
    (o.GetVerifier env identity).2.types = o.types ∧
    (o.GetSigningIdentity env identity).2.types = o.types ∧
    (o.types (env.UniqueID identity) = none →
      (o.GetSigner env identity).2.IdentityType env identity = api.Unknown ∧
      (o.GetVerifier env identity).2.IdentityType env identity = api.Unknown ∧
      (o.GetSigningIdentity env identity).2.IdentityType env identity = api.Unknown) ∧
    (∀ d x ds1 typ (s : S) (v : V), o.deserializer = some d →
      o.signers (env.UniqueID identity) = none →
      d.DeserializeSigner o.ds identity = (Except.ok x, ds1) →
      (o.GetSigner env identity).2.RegisterSignerWithType env typ identity (some s) (some v) =
        (none, (o.GetSigner env identity).2) ∧
      ((o.GetSigner env identity).2.RegisterSignerWithType env typ identity (some s)
        (some v)).2.verifiers = o.verifiers ∧
      (o.types (env.UniqueID identity) = none →
        ((o.GetSigner env identity).2.RegisterSignerWithType env typ identity (some s)
          (some v)).2.IdentityType env identity = api.Unknown)) := by
  have hs := (GetSigner_frame env o identity).2
  have hv := (GetVerifier_frame env o identity).2.2
  have hg : (o.GetSigningIdentity env identity).2.types = o.types := by
    rw [GetSigningIdentity_state, hs.2]
  refine ⟨hs.2, hv, hg, fun ht => ?_, fun d x ds1 typ s v hd hk hr => ?_⟩
  · simp [service.IdentityType, hs.2, hv, hg, ht]
  · have h1 := GetSigner_resolved env o identity d x ds1 hd hk hr
    have hb : (o.GetSigner env identity).2.signers (env.UniqueID identity) = some x := by
      rw [h1]
      simp [mapSet]
    have hnoop : (o.GetSigner env identity).2.RegisterSignerWithType env typ identity
        (some s) (some v) = (none, (o.GetSigner env identity).2) := by
      simp [service.RegisterSignerWithType, hb]
    refine ⟨hnoop, ?_, fun ht => ?_⟩
    · rw [hnoop, hs.1]
    · rw [hnoop]
      simp [service.IdentityType, hs.2, ht]

/-- C20 on a new registry with the counting deserializer: after the lazy `GetSigner alice`,
`RegisterSignerWithType MSPIdentity alice 1 2` is a no-op, `alice` has no verifier and her type
is `Unknown`. -/
theorem lazy_resolution_binds_no_type_witness :
    countingService.types (demoEnv.UniqueID alice) = none ∧
    countingService.deserializer = some countingDeserializer ∧
    countingService.signers (demoEnv.UniqueID alice) = none ∧
    countingDeserializer.DeserializeSigner countingService.ds alice = (Except.ok (some 42), 1) ∧
    (countingService.GetSigner demoEnv alice).2.IdentityType demoEnv alice = api.Unknown ∧
    ((countingService.GetSigner demoEnv alice).2.RegisterSignerWithType demoEnv
      api.MSPIdentity alice (some 1) (some 2)).2.verifiers = countingService.verifiers ∧
    ((countingService.GetSigner demoEnv alice).2.RegisterSignerWithType demoEnv
      api.MSPIdentity alice (some 1) (some 2)).2.IdentityType demoEnv alice = api.Unknown :=
  ⟨rfl, rfl, rfl, rfl,
    ((lazy_resolution_binds_no_type demoEnv countingService alice).2.2.2.1 rfl).1,
    ((lazy_resolution_binds_no_type demoEnv countingService alice).2.2.2.2
      countingDeserializer (some 42) 1 api.MSPIdentity 1 2 rfl rfl rfl).2.1,
    ((lazy_resolution_binds_no_type demoEnv countingService alice).2.2.2.2
      countingDeserializer (some 42) 1 api.MSPIdentity 1 2 rfl rfl rfl).2.2 rfl⟩

/-! ## The type bound to a key -/

/-- C4, amended: a type `T` bound to key `k` is still bound to `k` after every public
operation, except after a registration that binds a new slot at `k`.  Every call other than
a registration (the audit-info methods, `Info`, `GetSigner`, `GetVerifier`,
`GetSigningIdentity`, `IdentityType`) leaves the whole type map as it is, also when it binds a
signer or verifier lazily.  `RegisterSignerWithType` keeps `T` at `k` when its signer or
verifier is nil, when its identity has another key, or when a signer is already bound to `k`;
`RegisterVerifierWithType` keeps it when its verifier is nil, when its identity has another
key, or when a verifier is already bound to `k`.  In the remaining cases, a
`RegisterSignerWithType` with present arguments that finds no signer bound to `k` and a
`RegisterVerifierWithType` with a present verifier that finds no verifier bound to `k`, the
type of the call is bound to `k` in place of `T`.  `RegisterSigner` and `RegisterVerifier` are
these calls with the type `MSPIdentity`.  So once a signer and a verifier are bound to `k`, no
operation changes the type bound to `k`. -/
theorem type_kept_unless_new_binding (env : Env S) (o : service S V D K) (k : String) :
    (∀ identity info,
      (exec env o (Op.RegisterAuditInfo identity info : Op S V)).types = o.types ∧
      (exec env o (Op.GetAuditInfo identity : Op S V)).types = o.types ∧
      (exec env o (Op.Info identity : Op S V)).types = o.types ∧
      (exec env o (Op.GetSigner identity : Op S V)).types = o.types ∧
      (exec env o (Op.GetVerifier identity : Op S V)).types = o.types ∧
      (exec env o (Op.GetSigningIdentity identity : Op S V)).types = o.types ∧
      (exec env o (Op.IdentityType identity : Op S V)).types = o.types) ∧
    (∀ typ identity (signer : Option S) (verifier : Option V) (T : api.IdentityType),
      o.types k = some T →
      (signer = none ∨ verifier = none ∨ env.UniqueID identity ≠ k ∨ o.signers k ≠ none) →
      (exec env o (Op.RegisterSignerWithType typ identity signer verifier)).types k =
        some T) ∧
    (∀ typ identity (s : S) (v : V), env.UniqueID identity = k → o.signers k = none →
      (exec env o (Op.RegisterSignerWithType typ identity (some s) (some v))).types k =
        some typ) ∧
    (∀ typ identity (verifier : Option V) (T : api.IdentityType), o.types k = some T →
      (verifier = none ∨ env.UniqueID identity ≠ k ∨ o.verifiers k ≠ none) →
      (exec env o (Op.RegisterVerifierWithType typ identity verifier : Op S V)).types k =
        some T) ∧
    (∀ typ identity (v : V), env.UniqueID identity = k → o.verifiers k = none →
      (exec env o (Op.RegisterVerifierWithType typ identity (some v) : Op S V)).types k =
        some typ) ∧
    (∀ identity (signer : Option S) (verifier : Option V),
      exec env o (Op.RegisterSigner identity signer verifier) =
        exec env o (Op.RegisterSignerWithType api.MSPIdentity identity signer verifier) ∧
      exec env o (Op.RegisterVerifier identity verifier : Op S V) =
        exec env o (Op.RegisterVerifierWithType api.MSPIdentity identity verifier)) ∧
    (∀ (op : Op S V) (T : api.IdentityType), o.types k = some T →
      o.signers k ≠ none → o.verifiers k ≠ none → (exec env o op).types k = some T) := by
  refine ⟨?_, ?_, ?_, ?_, ?_, fun identity signer verifier => ⟨rfl, rfl⟩, ?_⟩
  · intro identity info
    refine ⟨(RegisterAuditInfo_frame env o identity info).2.2,
      (GetAuditInfo_frame env o identity).2.2.1, (Info_frame env o identity).2.2,
      (GetSigner_frame env o identity).2.2, (GetVerifier_frame env o identity).2.2, ?_, rfl⟩
    simp only [exec, GetSigningIdentity_state, (GetSigner_frame env o identity).2.2]
  · intro typ identity signer verifier T hT hcase
    by_cases hkk : env.UniqueID identity = k
    · subst hkk
      rcases hcase with h | h | h | h
      · subst h
        exact hT
      · subst h
        cases signer <;> exact hT
      · exact absurd rfl h
      · cases hs : o.signers (env.UniqueID identity) with
        | none => exact absurd hs h
        | some z =>
          cases signer with
          | none => exact hT
          | some x =>
            cases verifier with
            | none => exact hT
            | some y => simp [exec, service.RegisterSignerWithType, hs, hT]
    · have h := (RegisterSignerWithType_other_key env o typ identity signer verifier k
        (fun hk => hkk hk.symm)).2.2.1
      simp only [exec, h, hT]
  · intro typ identity s v hk hs
    subst hk
    simp only [exec]
    unfold service.RegisterSignerWithType service.RegisterVerifierWithType
    simp only [hs]
    split <;> simp [mapSet]
  · intro typ identity verifier T hT hcase
    by_cases hkk : env.UniqueID identity = k
    · subst hkk
      rcases hcase with h | h | h
      · subst h
        exact hT
      · exact absurd rfl h
      · cases hv : o.verifiers (env.UniqueID identity) with
        | none => exact absurd hv h
        | some z =>
          cases verifier with
          | none => exact hT
          | some y => simp [exec, service.RegisterVerifierWithType, hv, hT]
    · have h := (RegisterVerifierWithType_other_key env o typ identity verifier k
        (fun hk => hkk hk.symm)).2.2.1
      simp only [exec, h, hT]
  · intro typ identity v hk hv
    subst hk
    simp [exec, service.RegisterVerifierWithType, hv, mapSet]
  · intro op T hT hs hv
    obtain ⟨x, hx⟩ := Option.ne_none_iff_exists'.mp hs
    obtain ⟨y, hy⟩ := Option.ne_none_iff_exists'.mp hv
    rw [exec_types_of_same_bindings env o op k
      ((exec_signers_of_bound env o op k x hx).trans hx.symm)
      ((exec_verifiers_of_bound env o op k y hy).trans hy.symm), hT]

/-- C4, amended, on two registries.  Where `alice` has a signer, a verifier and the type
`MSPIdentity`, a further registration with type `Unknown` leaves her type as it is.  Where
only a verifier was registered for `alice`, with type `MSPIdentity`, a lazy `GetSigner alice`
binds a signer and leaves her type as it is. -/
theorem type_kept_unless_new_binding_witness :
    aliceService.types (demoEnv.UniqueID alice) = some api.MSPIdentity ∧
    aliceService.signers (demoEnv.UniqueID alice) ≠ none ∧
    (exec demoEnv aliceService
      (Op.RegisterSignerWithType api.Unknown alice (some 3) (some 4))).types
        (demoEnv.UniqueID alice) = some api.MSPIdentity ∧
    (countingService.RegisterVerifier demoEnv alice (some 2)).2.types
      (demoEnv.UniqueID alice) = some api.MSPIdentity ∧
    (countingService.RegisterVerifier demoEnv alice (some 2)).2.signers
      (demoEnv.UniqueID alice) = none ∧
    (exec demoEnv (countingService.RegisterVerifier demoEnv alice (some 2)).2
      (Op.GetSigner alice : Op Nat Nat)).signers (demoEnv.UniqueID alice) = some (some 42) ∧
    (exec demoEnv (countingService.RegisterVerifier demoEnv alice (some 2)).2
      (Op.GetSigner alice : Op Nat Nat)).types =
      (countingService.RegisterVerifier demoEnv alice (some 2)).2.types := by
  have ht : aliceService.types (demoEnv.UniqueID alice) = some api.MSPIdentity := by
    simp [aliceService, countingService, NewSignService, service.RegisterSigner,
      service.RegisterSignerWithType, service.RegisterVerifierWithType, mapSet]
  have hs : aliceService.signers (demoEnv.UniqueID alice) ≠ none := by
    simp [aliceService, countingService, NewSignService, service.RegisterSigner,
      service.RegisterSignerWithType, service.RegisterVerifierWithType, mapSet]
  have ht2 : (countingService.RegisterVerifier demoEnv alice (some 2)).2.types
      (demoEnv.UniqueID alice) = some api.MSPIdentity := by
    simp [countingService, NewSignService, service.RegisterVerifier,
      service.RegisterVerifierWithType, mapSet]
  have hb : (exec demoEnv (countingService.RegisterVerifier demoEnv alice (some 2)).2
      (Op.GetSigner alice : Op Nat Nat)).signers (demoEnv.UniqueID alice) = some (some 42) := by
    simp [exec, countingService, NewSignService, service.RegisterVerifier,
      service.RegisterVerifierWithType, service.GetSigner, countingDeserializer, mapSet]
  exact ⟨ht, hs,
    (type_kept_unless_new_binding demoEnv aliceService (demoEnv.UniqueID alice)).2.1
      api.Unknown alice (some 3) (some 4) api.MSPIdentity ht (Or.inr (Or.inr (Or.inr hs))),
    ht2, rfl, hb,
    ((type_kept_unless_new_binding demoEnv
      (countingService.RegisterVerifier demoEnv alice (some 2)).2
      (demoEnv.UniqueID alice)).1 alice none).2.2.2.1⟩

end sig
